import Mathlib

/-!
Shallow embedding of the configuration subsystem of pgexporter
(src/libpgexporter/configuration.c) and proofs about the claims of its
natural-language specification.

Conventions of the embedding:
* C strings are Lean String values (no NUL bytes, no buffer aliasing);
  a memcpy of a truncated value into a zeroed buffer is modelled as
  assignment of the truncated string.
* Machine integer overflow of int and long is not modelled: the values in
  the configuration surface are small.
* Fallible C functions returning 0 or 1 with out-parameters are modelled
  as functions into Option or into pairs carrying the return code,
  matching each call site (some out-parameters are written even on the
  error path, and the model mirrors that where the caller observes it).
* Constants from headers that are not part of the sources (pgexporter.h)
  are modelled as named constants; the claims do not depend on their
  exact values.
-/

namespace Pgexporter

/-! ### Character and string helpers -/

/-- The tab character. -/
def tabC : Char := Char.ofNat 9

/-- The newline character. -/
def nlC : Char := Char.ofNat 10

/-- The vertical-tab character. -/
def vtC : Char := Char.ofNat 11

/-- The form-feed character. -/
def ffC : Char := Char.ofNat 12

/-- The carriage-return character. -/
def crC : Char := Char.ofNat 13

/-- The double-quote character. -/
def dqC : Char := Char.ofNat 34

/-- The single-quote character. -/
def sqC : Char := Char.ofNat 39

/-- Membership of a char in the C isspace class. -/
def isSpaceC (c : Char) : Bool :=
  c = ' ' || c = tabC || c = nlC || c = vtC || c = ffC || c = crC

/-- The whitespace class used by is_empty_string: space, tab, CR, LF. -/
def isWsC (c : Char) : Bool :=
  c = ' ' || c = tabC || c = crC || c = nlC

/-- Numeric value of a decimal digit list, most significant first. -/
def digits_to_nat (l : List Char) : Nat :=
  l.foldl (fun a c => a * 10 + (c.toNat - 48)) 0

/-- Truncation of a string to at most n characters, as a memcpy of at
most n bytes into a zeroed buffer. -/
def truncStr (n : Nat) (s : String) : String :=
  (s.toList.take n).asString

/-- Model of pgexporter_starts_with (utils.c, not under src): string
prefix test. -/
def starts_with_m (s pre : String) : Bool :=
  pre.toList.isPrefixOf s.toList

/-! ### Header constants

Modelled from the spec: these sizes come from pgexporter.h, which is not
part of the sources; the claims do not depend on their exact values. -/

def MISC_LENGTH : Nat := 128
def MAX_PATH : Nat := 1024
def MAX_USERNAME_LENGTH : Nat := 128
def MAX_PASSWORD_LENGTH : Nat := 1024
def MAX_EXTENSIONS_CONFIG_LENGTH : Nat := 512
def NUMBER_OF_SERVERS : Nat := 8
def NUMBER_OF_ENDPOINTS : Nat := 8
def PROMETHEUS_MAX_CACHE_SIZE : Nat := 268435456
def PROMETHEUS_DEFAULT_BRIDGE_CACHE_SIZE : Nat := 5242880
def PROMETHEUS_MAX_BRIDGE_CACHE_SIZE : Nat := 268435456
def PROMETHEUS_DEFAULT_BRIDGE_JSON_CACHE_SIZE : Nat := 16777216
def PROMETHEUS_MAX_BRIDGE_JSON_CACHE_SIZE : Nat := 268435456
def PGEXPORTER_LOGGING_ROTATION_DISABLED : Nat := 0

def HUGEPAGE_OFF : Int := 0
def HUGEPAGE_TRY : Int := 1
def HUGEPAGE_ON : Int := 2

def PGEXPORTER_LOGGING_TYPE_CONSOLE : Int := 0
def PGEXPORTER_LOGGING_TYPE_FILE : Int := 1
def PGEXPORTER_LOGGING_TYPE_SYSLOG : Int := 2

def PGEXPORTER_LOGGING_LEVEL_DEBUG5 : Int := 1
def PGEXPORTER_LOGGING_LEVEL_DEBUG4 : Int := 2
def PGEXPORTER_LOGGING_LEVEL_DEBUG3 : Int := 3
def PGEXPORTER_LOGGING_LEVEL_DEBUG2 : Int := 4
def PGEXPORTER_LOGGING_LEVEL_DEBUG1 : Int := 5
def PGEXPORTER_LOGGING_LEVEL_INFO : Int := 6
def PGEXPORTER_LOGGING_LEVEL_WARN : Int := 7
def PGEXPORTER_LOGGING_LEVEL_ERROR : Int := 8
def PGEXPORTER_LOGGING_LEVEL_FATAL : Int := 9

def PGEXPORTER_LOGGING_MODE_APPEND : Int := 0
def PGEXPORTER_LOGGING_MODE_CREATE : Int := 1

def UPDATE_PROCESS_TITLE_NEVER : Nat := 0
def UPDATE_PROCESS_TITLE_STRICT : Nat := 1
def UPDATE_PROCESS_TITLE_MINIMAL : Nat := 2
def UPDATE_PROCESS_TITLE_VERBOSE : Nat := 3

/-! ### Data model -/

/-- A bridge endpoint: struct endpoint of pgexporter.h (host, port). -/
structure Endpoint where
  host : String
  port : Int
deriving DecidableEq, Repr

/-- The all-zero endpoint slot of a freshly initialised shared-memory
segment. -/
def empty_endpoint : Endpoint := { host := "", port := 0 }

/-- A PostgreSQL server record: the fields of struct server that the
configuration code reads or writes.  Runtime state (version, connection
state) is omitted; copy_server does not transfer it either. -/
structure Server where
  name : String
  host : String
  port : Int
  username : String
  data : String
  wal : String
  extensions_config : String
  tls_cert_file : String
  tls_key_file : String
  tls_ca_file : String
  fd : Int
deriving DecidableEq, Repr

/-- The all-zero server produced by memset. -/
def empty_server : Server :=
  { name := "", host := "", port := 0, username := "", data := "", wal := ""
    extensions_config := "", tls_cert_file := "", tls_key_file := ""
    tls_ca_file := "", fd := 0 }

/-- A credential record: struct user (username, password). -/
structure User where
  username : String
  password : String
deriving DecidableEq, Repr

/-- The fields of struct configuration that the configuration code
manipulates.  The prometheus metric array is omitted: no claim concerns
it, and transfer_configuration copies it wholesale.
number_of_servers is kept separately from the stored list because
pgexporter_read_configuration sets it to the number of sections seen,
which can exceed the number of stored slots. -/
structure Config where
  host : String
  unix_socket_dir : String
  metrics : Int
  metrics_path : String
  metrics_cache_max_age : Int
  metrics_cache_max_size : Nat
  bridge : Int
  bridge_cache_max_age : Int
  bridge_cache_max_size : Nat
  bridge_json : Int
  bridge_json_cache_max_size : Nat
  endpoints : List Endpoint
  management : Int
  cache : Bool
  tls : Bool
  tls_cert_file : String
  tls_key_file : String
  tls_ca_file : String
  metrics_cert_file : String
  metrics_key_file : String
  metrics_ca_file : String
  blocking_timeout : Int
  authentication_timeout : Int
  pidfile : String
  update_process_title : Nat
  log_type : Int
  log_level : Int
  log_path : String
  log_rotation_size : Nat
  log_rotation_age : Int
  log_mode : Int
  log_line_pfx : String
  libev : String
  keep_alive : Bool
  nodelay : Bool
  non_blocking : Bool
  backlog : Int
  hugepage : Int
  servers : List Server
  number_of_servers : Nat
  users : List User
  admins : List User
  global_extensions : String
  configuration_path : String
  users_path : String
  admins_path : String
deriving DecidableEq, Repr

/-- The all-zero configuration of a freshly allocated shared-memory
segment. -/
def zero_config : Config :=
  { host := "", unix_socket_dir := "", metrics := 0, metrics_path := ""
    metrics_cache_max_age := 0, metrics_cache_max_size := 0, bridge := 0
    bridge_cache_max_age := 0, bridge_cache_max_size := 0, bridge_json := 0
    bridge_json_cache_max_size := 0, endpoints := [], management := 0
    cache := false, tls := false, tls_cert_file := "", tls_key_file := ""
    tls_ca_file := "", metrics_cert_file := "", metrics_key_file := ""
    metrics_ca_file := "", blocking_timeout := 0
    authentication_timeout := 0, pidfile := "", update_process_title := 0
    log_type := 0, log_level := 0, log_path := "", log_rotation_size := 0
    log_rotation_age := 0, log_mode := 0, log_line_pfx := "", libev := ""
    keep_alive := false, nodelay := false, non_blocking := false
    backlog := 0, hugepage := 0, servers := [], number_of_servers := 0
    users := [], admins := [], global_extensions := ""
    configuration_path := "", users_path := "", admins_path := "" }

/-- pgexporter_init_configuration: the defaults written over the zeroed
shared memory segment. -/
def pgexporter_init_configuration : Config :=
  { zero_config with
    metrics := -1
    cache := true
    bridge := -1
    bridge_cache_max_age := 300
    bridge_cache_max_size := PROMETHEUS_DEFAULT_BRIDGE_CACHE_SIZE
    bridge_json := -1
    bridge_json_cache_max_size := PROMETHEUS_DEFAULT_BRIDGE_JSON_CACHE_SIZE
    tls := false
    blocking_timeout := 30
    authentication_timeout := 5
    keep_alive := true
    nodelay := true
    non_blocking := true
    backlog := 16
    hugepage := HUGEPAGE_TRY
    update_process_title := UPDATE_PROCESS_TITLE_VERBOSE
    log_type := PGEXPORTER_LOGGING_TYPE_CONSOLE
    log_level := PGEXPORTER_LOGGING_LEVEL_INFO
    log_mode := PGEXPORTER_LOGGING_MODE_APPEND }

/-- Array access into the server slots: slots beyond the stored list are
the zeroed shared memory. -/
def get_server (cfg : Config) (i : Nat) : Server :=
  cfg.servers.getD i empty_server

/-- The filesystem facts validation consults: stat-is-directory for
unix_socket_dir and pgexporter_exists for TLS material. -/
structure FsEnv where
  is_dir : String → Bool
  file_exists : String → Bool

/-! ### Scalar parsers -/

/-- is_empty_string: NULL, empty, or only space, tab, CR, LF. -/
def is_empty_string (s : String) : Bool :=
  s = "" || s.toList.all isWsC

/-- strtol base 10 in the way as_int and as_long use it: leading
whitespace and a sign are consumed, at least one digit is required and
the whole string must be consumed.  Overflow of long is not modelled. -/
def strtol_full (s : String) : Option Int :=
  let t := s.toList.dropWhile isSpaceC
  let signed : Int × List Char :=
    match t with
    | c :: rest =>
      if c = '-' then (-1, rest) else if c = '+' then (1, rest) else (1, t)
    | [] => (1, t)
  let ds := signed.2.takeWhile Char.isDigit
  if ds = [] then none
  else if signed.2.drop ds.length ≠ [] then none
  else some (signed.1 * (digits_to_nat ds : Int))

/-- as_int: strtol with full consumption, range errors not modelled. -/
def as_int (s : String) : Option Int := strtol_full s

/-- as_long: same parse as as_int, into long. -/
def as_long (s : String) : Option Int := strtol_full s

/-- atoi: leading whitespace, optional sign, then the longest digit
prefix; anything after it is ignored; no digits give 0. -/
def atoi (s : String) : Int :=
  let t := s.toList.dropWhile isSpaceC
  match t with
  | c :: rest =>
    if c = '-' then -((digits_to_nat (rest.takeWhile Char.isDigit) : Int))
    else if c = '+' then (digits_to_nat (rest.takeWhile Char.isDigit) : Int)
    else (digits_to_nat (t.takeWhile Char.isDigit) : Int)
  | [] => 0

/-- Case-insensitive string equality, as strcasecmp == 0. -/
def eq_icase (s t : String) : Bool :=
  s.toLower = t.toLower

/-- as_bool: true/on/yes/1 and false/off/no/0, case-insensitive; the out
parameter is written only on success. -/
def as_bool (s : String) : Option Bool :=
  if eq_icase s "true" || eq_icase s "on" || eq_icase s "yes" || eq_icase s "1"
  then some true
  else if eq_icase s "false" || eq_icase s "off" || eq_icase s "no" || eq_icase s "0"
  then some false
  else none

/-- as_logging_type: console, file, syslog; anything else is 0. -/
def as_logging_type (s : String) : Int :=
  if eq_icase s "console" then PGEXPORTER_LOGGING_TYPE_CONSOLE
  else if eq_icase s "file" then PGEXPORTER_LOGGING_TYPE_FILE
  else if eq_icase s "syslog" then PGEXPORTER_LOGGING_TYPE_SYSLOG
  else 0

/-- as_logging_level: a debug prefix with an optional numeric suffix, or
one of info, warn, error, fatal; default info. -/
def as_logging_level (s : String) : Int :=
  if (s.toList.take 5).asString.toLower = "debug" then
    let lvl : Int :=
      if s.length > 5 then
        match as_int (s.toList.drop 5).asString with
        | some v => v
        | none => 1
      else 1
    if lvl ≤ 1 then PGEXPORTER_LOGGING_LEVEL_DEBUG1
    else if lvl = 2 then PGEXPORTER_LOGGING_LEVEL_DEBUG2
    else if lvl = 3 then PGEXPORTER_LOGGING_LEVEL_DEBUG3
    else if lvl = 4 then PGEXPORTER_LOGGING_LEVEL_DEBUG4
    else PGEXPORTER_LOGGING_LEVEL_DEBUG5
  else if eq_icase s "info" then PGEXPORTER_LOGGING_LEVEL_INFO
  else if eq_icase s "warn" then PGEXPORTER_LOGGING_LEVEL_WARN
  else if eq_icase s "error" then PGEXPORTER_LOGGING_LEVEL_ERROR
  else if eq_icase s "fatal" then PGEXPORTER_LOGGING_LEVEL_FATAL
  else PGEXPORTER_LOGGING_LEVEL_INFO

/-- as_logging_mode: a or append, c or create; default append. -/
def as_logging_mode (s : String) : Int :=
  if eq_icase s "a" || eq_icase s "append" then PGEXPORTER_LOGGING_MODE_APPEND
  else if eq_icase s "c" || eq_icase s "create" then PGEXPORTER_LOGGING_MODE_CREATE
  else PGEXPORTER_LOGGING_MODE_APPEND

/-- as_hugepage: off, try, on; default off. -/
def as_hugepage (s : String) : Int :=
  if eq_icase s "off" then HUGEPAGE_OFF
  else if eq_icase s "try" then HUGEPAGE_TRY
  else if eq_icase s "on" then HUGEPAGE_ON
  else HUGEPAGE_OFF

/-- as_update_process_title: never/off, strict, minimal, verbose/full;
empty or unknown gives the supplied default. -/
def as_update_process_title (s : String) (default_policy : Nat) : Nat :=
  if is_empty_string s then default_policy
  else if s = "never" || s = "off" then UPDATE_PROCESS_TITLE_NEVER
  else if s = "strict" then UPDATE_PROCESS_TITLE_STRICT
  else if s = "minimal" then UPDATE_PROCESS_TITLE_MINIMAL
  else if s = "verbose" || s = "full" then UPDATE_PROCESS_TITLE_VERBOSE
  else default_policy

/-- The character scan of as_seconds: digits accumulate; before a
multiplier is set, s, m, h, d, w set it and other letters are ignored;
after it is set any letter is an error; any other character is an
error.  Returns the digit characters and the multiplier. -/
def as_seconds_scan : List Char → List Char → Int → Bool → Option (List Char × Int)
  | [], digits, mult, _ => some (digits, mult)
  | c :: rest, digits, mult, mset =>
    if c.isDigit then as_seconds_scan rest (digits ++ [c]) mult mset
    else if c.isAlpha && mset then none
    else if c.isAlpha && !mset then
      if c = 's' || c = 'S' then as_seconds_scan rest digits 1 true
      else if c = 'm' || c = 'M' then as_seconds_scan rest digits 60 true
      else if c = 'h' || c = 'H' then as_seconds_scan rest digits 3600 true
      else if c = 'd' || c = 'D' then as_seconds_scan rest digits (24 * 3600) true
      else if c = 'w' || c = 'W' then as_seconds_scan rest digits (24 * 3600 * 7) true
      else as_seconds_scan rest digits mult mset
    else none

/-- as_seconds: returns the pair of the C return code and the value the
out parameter holds after the call (the default on every error path). -/
def as_seconds (s : String) (default_age : Int) : Nat × Int :=
  if is_empty_string s then (0, default_age)
  else
    match as_seconds_scan s.toList [] 1 false with
    | none => (1, default_age)
    | some (digits, mult) =>
      match as_int digits.asString with
      | some v => if v ≥ 0 then (0, v * mult) else (1, default_age)
      | none => (1, default_age)

/-- The character scan of as_bytes: digits accumulate; before a
multiplier is set, b, k, m, g (either case) set it and any other letter
is ignored; after it is set, a letter is allowed only when it is b or B
and the multiplier is not 1; any other character is an error.  Returns
the digit characters and the multiplier. -/
def as_bytes_scan : List Char → List Char → Int → Bool → Option (List Char × Int)
  | [], digits, mult, _ => some (digits, mult)
  | c :: rest, digits, mult, mset =>
    if c.isDigit then as_bytes_scan rest (digits ++ [c]) mult mset
    else if c.isAlpha && mset then
      if mult = 1 || (c ≠ 'b' && c ≠ 'B') then none
      else as_bytes_scan rest digits mult mset
    else if c.isAlpha && !mset then
      if c = 'M' || c = 'm' then as_bytes_scan rest digits (1024 * 1024) true
      else if c = 'G' || c = 'g' then as_bytes_scan rest digits (1024 * 1024 * 1024) true
      else if c = 'K' || c = 'k' then as_bytes_scan rest digits 1024 true
      else if c = 'B' || c = 'b' then as_bytes_scan rest digits 1 true
      else as_bytes_scan rest digits mult mset
    else none

/-- as_bytes: returns the pair of the C return code and the value the
out parameter holds after the call (the default on every error path). -/
def as_bytes (s : String) (default_bytes : Int) : Nat × Int :=
  if is_empty_string s then (0, default_bytes)
  else
    match as_bytes_scan s.toList [] 1 false with
    | none => (1, default_bytes)
    | some (digits, mult) =>
      match as_long digits.asString with
      | some l => if l ≥ 0 then (0, l * mult) else (1, default_bytes)
      | none => (1, default_bytes)

/-- as_logging_rotation_size: as_bytes with the rotation-disabled
default, the out parameter cast to size_t. -/
def as_logging_rotation_size (s : String) : Nat × Nat :=
  let r := as_bytes s (PGEXPORTER_LOGGING_ROTATION_DISABLED : Int)
  (r.1, r.2.toNat)

/-- as_logging_rotation_age: as_seconds with the rotation-disabled
default. -/
def as_logging_rotation_age (s : String) : Nat × Int :=
  as_seconds s (PGEXPORTER_LOGGING_ROTATION_DISABLED : Int)

/-! ### Bridge endpoint parsing (as_endpoints) -/

/-- Modelled from the spec: pgexporter_remove_whitespace (utils.c, not
under src) strips the surrounding whitespace of the string. -/
def remove_whitespace_m (s : String) : String :=
  (((s.toList.dropWhile isWsC).reverse.dropWhile isWsC).reverse).asString

/-- Modelled from the spec: pgexporter_remove_prefix_like helper of
utils.c (not under src) drops the given leading string when present. -/
def remove_pre_m (s p : String) : String :=
  if p.toList.isPrefixOf s.toList then (s.toList.drop p.toList.length).asString
  else s

/-- Modelled from the spec: pgexporter_remove_suffix_like helper of
utils.c (not under src) drops the given trailing string when present. -/
def remove_suf_m (s p : String) : String :=
  if p.toList.isSuffixOf s.toList then
    (s.toList.take (s.toList.length - p.toList.length)).asString
  else s

/-- The normalization chain applied to each endpoint token by
as_endpoints, in source order: whitespace, leading https://, leading
http://, trailing /metrics, trailing /. -/
def normalize_endpoint_token (s : String) : String :=
  remove_suf_m
    (remove_suf_m
      (remove_pre_m (remove_pre_m (remove_whitespace_m s) "https://") "http://")
      "/metrics")
    "/"

/-- sscanf of an endpoint token against percent-127-of-non-colon, a
literal colon, then a 5-character percent-s: the host is the run of
non-colon characters (at most 127, at least one), the next character
must be a colon, the port is the first at most 5 characters of the
following non-whitespace run (at least one); trailing input is
ignored. -/
def sscanf_endpoint (t : String) : Option (String × String) :=
  let cs := t.toList
  let hostRun := (cs.takeWhile (fun c => c ≠ ':')).take 127
  if hostRun = [] then none
  else
    match cs.drop hostRun.length with
    | ':' :: rest =>
      let portRun := ((rest.dropWhile isSpaceC).takeWhile (fun c => !isSpaceC c)).take 5
      if portRun = [] then none
      else some (hostRun.asString, portRun.asString)
    | _ => none

/-- The token loop of as_endpoints.  The accumulated list holds the
slots written so far; the duplicate check with reload = false scans the
slots 0 to idx inclusive, where slot idx still holds the zeroed value of
a freshly initialised segment. -/
def as_endpoints_loop (reload : Bool) : List (List Char) → List Endpoint → Option (List Endpoint)
  | [], acc => some acc
  | tok :: rest, acc =>
    if acc.length < NUMBER_OF_ENDPOINTS then
      match sscanf_endpoint (normalize_endpoint_token tok.asString) with
      | some (host, port) =>
        if !reload &&
            ((acc ++ [empty_endpoint]).any (fun e => e.host = host && e.port = atoi port))
        then as_endpoints_loop reload rest acc
        else as_endpoints_loop reload rest (acc ++ [{ host := host, port := atoi port }])
      | none => none
    else some acc

/-- as_endpoints: the value split at commas by strtok (empty tokens are
skipped), each token normalized and parsed; a parse failure clears every
endpoint and reports 1, otherwise the stored endpoints replace the
configuration and 0 is reported. -/
def as_endpoints (s : String) (config : Config) (reload : Bool) : Nat × Config :=
  let tokens := (s.toList.splitOn ',').filter (fun t => t ≠ [])
  match as_endpoints_loop reload tokens [] with
  | some eps => (0, { config with endpoints := eps })
  | none => (1, { config with endpoints := [] })

/-! ### Line splitting (extract_key_value, extract_syskey_value) -/

/-- extract_key_value: a line with an equals sign yields the key (before
the equals sign, leading and trailing space, tab and quotes stripped)
and the value (after the equals sign, leading equals, space, tab and
quotes stripped, copied until a hash, trailing space, tab, CR and quotes
stripped); a line without an equals sign yields nothing. -/
def extract_key_value (line : String) : Option (String × String) :=
  let cs := line.toList
  if cs.contains '=' then
    let lskip := fun c => c = tabC || c = ' ' || c = dqC || c = sqC
    let leftRaw := cs.takeWhile (fun c => c ≠ '=')
    let left := ((leftRaw.dropWhile lskip).reverse.dropWhile lskip).reverse
    let rskip := fun c => c = '=' || c = ' ' || c = tabC || c = dqC || c = sqC
    let rtrim := fun c => c = ' ' || c = tabC || c = crC || c = dqC || c = sqC
    let rightRaw := cs.dropWhile (fun c => c ≠ '=')
    let right :=
      (((rightRaw.dropWhile rskip).takeWhile (fun c => c ≠ '#')).reverse.dropWhile rtrim).reverse
    some (left.asString, right.asString)
  else none

/-- extract_syskey_value: the key is everything before the first space
or equals sign (the line fails when there is none); the value follows
after skipping space, tab, equals, CR and LF, with trailing whitespace
trimmed.  pgexporter_resolve_path (utils.c, not under src) is modelled
from the spec as the identity: environment-variable expansion is not
exercised by any claim. -/
def extract_syskey_value (line : String) : Option (String × String) :=
  let cs := line.toList
  let keyRun := cs.takeWhile (fun c => c ≠ ' ' && c ≠ '=')
  if keyRun.length = cs.length then none
  else
    let skip := fun c => c = ' ' || c = tabC || c = '=' || c = crC || c = nlC
    let rest := (cs.drop keyRun.length).dropWhile skip
    if rest = [] then some (keyRun.asString, "")
    else
      let v := (rest.reverse.dropWhile (fun c => c = ' ' || c = tabC || c = crC || c = nlC)).reverse
      some (keyRun.asString, v.asString)

/-! ### pgexporter_read_configuration -/

/-- The parser state of pgexporter_read_configuration: the configuration
being filled, the current section, the server record being built and the
number of server sections seen. -/
structure ReadState where
  cfg : Config
  sect : String
  srv : Server
  idx_server : Nat
deriving DecidableEq, Repr

/-- The keys whose lines go through extract_syskey_value, selected by a
prefix test on the raw line. -/
def line_is_sys (line : String) : Bool :=
  starts_with_m line "unix_socket_dir" || starts_with_m line "metrics_path" ||
  starts_with_m line "log_path" || starts_with_m line "tls_cert_file" ||
  starts_with_m line "tls_key_file" || starts_with_m line "tls_ca_file" ||
  starts_with_m line "metrics_cert_file" || starts_with_m line "metrics_key_file" ||
  starts_with_m line "metrics_ca_file"

/-- Clamp of a stored cache size against its maximum. -/
def clamp_size (maxv v : Nat) : Nat := if v > maxv then maxv else v

/-- The key dispatch of pgexporter_read_configuration for one key and
value, in source order.  An unknown key only produces a warning in the
source, so it leaves the state unchanged here. -/
def apply_file_key (st : ReadState) (key value : String) : ReadState :=
  let sect := st.sect
  let cfg := st.cfg
  let srv := st.srv
  let t127 := truncStr (MISC_LENGTH - 1)
  let t1023 := truncStr (MAX_PATH - 1)
  if key = "host" then
    if sect = "pgexporter" then { st with cfg := { cfg with host := t127 value } }
    else if sect ≠ "" then
      { st with srv := { srv with name := t127 sect, host := t127 value } }
    else st
  else if key = "port" then
    if sect ≠ "" then
      match as_int value with
      | some v => { st with srv := { srv with port := v } }
      | none => st
    else st
  else if key = "user" then
    if sect ≠ "" then
      { st with srv := { srv with name := t127 sect
                                  username := truncStr (MAX_USERNAME_LENGTH - 1) value } }
    else st
  else if key = "metrics" then
    if sect = "pgexporter" then
      match as_int value with
      | some v => { st with cfg := { cfg with metrics := v } }
      | none => st
    else st
  else if key = "metrics_cache_max_size" then
    if sect = "pgexporter" then
      let r := as_bytes value 0
      { st with cfg := { cfg with
          metrics_cache_max_size := clamp_size PROMETHEUS_MAX_CACHE_SIZE r.2.toNat } }
    else st
  else if key = "metrics_cache_max_age" then
    if sect = "pgexporter" then
      let r := as_seconds value 0
      { st with cfg := { cfg with metrics_cache_max_age := r.2 } }
    else st
  else if key = "bridge" then
    if sect = "pgexporter" then
      match as_int value with
      | some v => { st with cfg := { cfg with bridge := v } }
      | none => st
    else st
  else if key = "bridge_endpoints" then
    if sect = "pgexporter" then
      let r := as_endpoints value cfg false
      { st with cfg := r.2 }
    else st
  else if key = "bridge_cache_max_size" then
    if sect = "pgexporter" then
      let r := as_bytes value (PROMETHEUS_DEFAULT_BRIDGE_CACHE_SIZE : Int)
      { st with cfg := { cfg with
          bridge_cache_max_size := clamp_size PROMETHEUS_MAX_BRIDGE_CACHE_SIZE r.2.toNat } }
    else st
  else if key = "bridge_cache_max_age" then
    if sect = "pgexporter" then
      let r := as_seconds value 300
      { st with cfg := { cfg with bridge_cache_max_age := r.2 } }
    else st
  else if key = "bridge_json" then
    if sect = "pgexporter" then
      match as_int value with
      | some v => { st with cfg := { cfg with bridge_json := v } }
      | none => st
    else st
  else if key = "bridge_json_cache_max_size" then
    if sect = "pgexporter" then
      let r := as_bytes value (PROMETHEUS_DEFAULT_BRIDGE_JSON_CACHE_SIZE : Int)
      { st with cfg := { cfg with
          bridge_json_cache_max_size := clamp_size PROMETHEUS_MAX_BRIDGE_JSON_CACHE_SIZE r.2.toNat } }
    else st
  else if key = "management" then
    if sect = "pgexporter" then
      match as_int value with
      | some v => { st with cfg := { cfg with management := v } }
      | none => st
    else st
  else if key = "cache" then
    if sect = "pgexporter" then
      match as_bool value with
      | some b => { st with cfg := { cfg with cache := b } }
      | none => st
    else st
  else if key = "tls" then
    if sect = "pgexporter" then
      match as_bool value with
      | some b => { st with cfg := { cfg with tls := b } }
      | none => st
    else st
  else if key = "tls_ca_file" then
    if sect = "pgexporter" then { st with cfg := { cfg with tls_ca_file := t1023 value } }
    else if sect ≠ "" then
      { st with srv := { srv with name := t1023 sect, tls_ca_file := t1023 value } }
    else st
  else if key = "tls_cert_file" then
    if sect = "pgexporter" then { st with cfg := { cfg with tls_cert_file := t1023 value } }
    else if sect ≠ "" then
      { st with srv := { srv with name := t1023 sect, tls_cert_file := t1023 value } }
    else st
  else if key = "tls_key_file" then
    if sect = "pgexporter" then { st with cfg := { cfg with tls_key_file := t1023 value } }
    else if sect ≠ "" then
      { st with srv := { srv with name := t1023 sect, tls_key_file := t1023 value } }
    else st
  else if key = "metrics_ca_file" then
    if sect = "pgexporter" then { st with cfg := { cfg with metrics_ca_file := t1023 value } }
    else st
  else if key = "metrics_cert_file" then
    if sect = "pgexporter" then { st with cfg := { cfg with metrics_cert_file := t1023 value } }
    else st
  else if key = "metrics_key_file" then
    if sect = "pgexporter" then { st with cfg := { cfg with metrics_key_file := t1023 value } }
    else st
  else if key = "blocking_timeout" then
    if sect = "pgexporter" then
      match as_int value with
      | some v => { st with cfg := { cfg with blocking_timeout := v } }
      | none => st
    else st
  else if key = "pidfile" then
    if sect = "pgexporter" then { st with cfg := { cfg with pidfile := t1023 value } }
    else st
  else if key = "update_process_title" then
    if sect = "pgexporter" then
      { st with cfg := { cfg with
          update_process_title := as_update_process_title value UPDATE_PROCESS_TITLE_VERBOSE } }
    else st
  else if key = "log_type" then
    if sect = "pgexporter" then
      { st with cfg := { cfg with log_type := as_logging_type value } }
    else st
  else if key = "log_level" then
    if sect = "pgexporter" then
      { st with cfg := { cfg with log_level := as_logging_level value } }
    else st
  else if key = "log_path" then
    if sect = "pgexporter" then { st with cfg := { cfg with log_path := t127 value } }
    else st
  else if key = "log_rotation_size" then
    if sect = "pgexporter" then
      let r := as_logging_rotation_size value
      { st with cfg := { cfg with log_rotation_size := r.2 } }
    else st
  else if key = "log_rotation_age" then
    if sect = "pgexporter" then
      let r := as_logging_rotation_age value
      { st with cfg := { cfg with log_rotation_age := r.2 } }
    else st
  else if key = "log_line_prefix" then
    if sect = "pgexporter" then { st with cfg := { cfg with log_line_pfx := t127 value } }
    else st
  else if key = "log_mode" then
    if sect = "pgexporter" then
      { st with cfg := { cfg with log_mode := as_logging_mode value } }
    else st
  else if key = "unix_socket_dir" then
    if sect = "pgexporter" then { st with cfg := { cfg with unix_socket_dir := t127 value } }
    else st
  else if key = "libev" then
    if sect = "pgexporter" then { st with cfg := { cfg with libev := t127 value } }
    else st
  else if key = "keep_alive" then
    if sect = "pgexporter" then
      match as_bool value with
      | some b => { st with cfg := { cfg with keep_alive := b } }
      | none => st
    else st
  else if key = "nodelay" then
    if sect = "pgexporter" then
      match as_bool value with
      | some b => { st with cfg := { cfg with nodelay := b } }
      | none => st
    else st
  else if key = "non_blocking" then
    if sect = "pgexporter" then
      match as_bool value with
      | some b => { st with cfg := { cfg with non_blocking := b } }
      | none => st
    else st
  else if key = "backlog" then
    if sect = "pgexporter" then
      match as_int value with
      | some v => { st with cfg := { cfg with backlog := v } }
      | none => st
    else st
  else if key = "hugepage" then
    if sect = "pgexporter" then
      { st with cfg := { cfg with hugepage := as_hugepage value } }
    else st
  else if key = "data_dir" then
    if sect ≠ "" then
      { st with srv := { srv with name := t127 sect, data := t127 value } }
    else st
  else if key = "wal_dir" then
    if sect ≠ "" then
      { st with srv := { srv with name := t127 sect, wal := t127 value } }
    else st
  else if key = "metrics_path" then
    if sect = "pgexporter" then { st with cfg := { cfg with metrics_path := t1023 value } }
    else st
  else if key = "extensions" then
    let t511 := truncStr (MAX_EXTENSIONS_CONFIG_LENGTH - 1)
    if sect = "pgexporter" then
      { st with cfg := { cfg with global_extensions := t511 value } }
    else if sect ≠ "" then
      { st with srv := { srv with name := t511 sect, extensions_config := t511 value } }
    else st
  else st

/-- Storing a finished server section: inside the bounds the pending
server is checked against every previously stored name (a duplicate
calls exit(1), modelled as an error) and appended; beyond the bounds
only a warning is emitted. -/
def flush_pending (st : ReadState) : Except Unit ReadState :=
  if 1 ≤ st.idx_server ∧ st.idx_server ≤ NUMBER_OF_SERVERS then
    if (List.range (st.idx_server - 1)).any
        (fun j => (get_server st.cfg j).name = st.srv.name) then
      .error ()
    else
      .ok { st with cfg := { st.cfg with servers := st.cfg.servers ++ [st.srv] } }
  else .ok st

/-- The fresh server record started at a section header. -/
def new_server (sect2 : String) : Server :=
  { empty_server with name := truncStr (MISC_LENGTH - 1) sect2, fd := -1 }

/-- A section-header line: the section name is everything between the
opening bracket and the first closing bracket, truncated; a line without
a closing bracket is ignored.  A non-pgexporter section stores the
pending server and starts a new one. -/
def handle_section_line (st : ReadState) (cs : List Char) : Except Unit ReadState :=
  let body := cs.drop 1
  if body.contains ']' then
    let sect2 := ((body.takeWhile (fun c => c ≠ ']')).take (MISC_LENGTH - 1)).asString
    if sect2 ≠ "pgexporter" then
      match flush_pending st with
      | .error e => .error e
      | .ok st2 =>
        .ok { st2 with sect := sect2, srv := new_server sect2
                       idx_server := st2.idx_server + 1 }
    else .ok { st with sect := sect2 }
  else .ok st

/-- One line of the main loop of pgexporter_read_configuration. -/
def read_line (st : ReadState) (line : String) : Except Unit ReadState :=
  if is_empty_string line then .ok st
  else
    match line.toList with
    | [] => .ok st
    | c :: cs =>
      if c = '[' then handle_section_line st (c :: cs)
      else if c = '#' || c = ';' then .ok st
      else
        match (if line_is_sys line then extract_syskey_value line else extract_key_value line) with
        | some kv => .ok (apply_file_key st kv.1 kv.2)
        | none => .ok st

/-- The fgets loop. -/
def read_lines : ReadState → List String → Except Unit ReadState
  | st, [] => .ok st
  | st, l :: rest =>
    match read_line st l with
    | .error e => .error e
    | .ok st2 => read_lines st2 rest

/-- End of file: a pending server is checked against every stored name
(a duplicate calls exit(1), modelled as an error) and stored; the
out-of-bounds store of the source (an overflow when more sections than
slots were seen) is modelled as dropped.  number_of_servers becomes the
number of sections seen. -/
def read_eof (st : ReadState) : Except Unit Config :=
  if st.srv.name ≠ "" then
    if (List.range (st.idx_server - 1)).any
        (fun j => (get_server st.cfg j).name = st.srv.name) then
      .error ()
    else
      let cfg2 :=
        if 1 ≤ st.idx_server ∧ st.idx_server ≤ NUMBER_OF_SERVERS then
          { st.cfg with servers := st.cfg.servers ++ [st.srv] }
        else st.cfg
      .ok { cfg2 with number_of_servers := st.idx_server }
  else .ok { st.cfg with number_of_servers := st.idx_server }

/-- pgexporter_read_configuration over the lines of an already opened
file (the only return-1 path of the source is a missing file, which the
reload model handles separately); the error outcome is the exit(1) on a
duplicated server name. -/
def pgexporter_read_configuration (cfg : Config) (lines : List String) : Except Unit Config :=
  match read_lines { cfg := cfg, sect := "", srv := empty_server, idx_server := 0 } lines with
  | .error e => .error e
  | .ok st => read_eof st

/-! ### Validation -/

/-- The reset of the metrics TLS material when one of its files does not
exist. -/
def clear_metrics_tls (cfg : Config) : Config :=
  { cfg with metrics_cert_file := "", metrics_key_file := "", metrics_ca_file := "" }

/-- The per-server checks of pgexporter_validate_configuration: reserved
names, host, port and user.  Every failing check returns the same code,
so the sequence of early returns collapses to one conjunction. -/
def servers_ok (cfg : Config) : Bool :=
  (List.range cfg.number_of_servers).all fun i =>
    let s := get_server cfg i
    s.name ≠ "pgexporter" && s.name ≠ "all" && s.host ≠ "" && s.port ≠ 0 && s.username ≠ ""

/-- The mutations pgexporter_validate_configuration performs on its way
through: the backlog clamp and the three TLS-material resets. -/
def validate_mutations (env : FsEnv) (cfg0 : Config) : Config :=
  let c1 := if cfg0.backlog < 16 then { cfg0 with backlog := 16 } else cfg0
  let c2 := if c1.metrics_cert_file ≠ "" ∧ !(env.file_exists c1.metrics_cert_file)
            then clear_metrics_tls c1 else c1
  let c3 := if c2.metrics_key_file ≠ "" ∧ !(env.file_exists c2.metrics_key_file)
            then clear_metrics_tls c2 else c2
  if c3.metrics_ca_file ≠ "" ∧ !(env.file_exists c3.metrics_ca_file)
  then clear_metrics_tls c3 else c3

/-- pgexporter_validate_configuration: returns the code and the
configuration as mutated by the backlog clamp and the TLS-material
resets.  The bridge_json_cache_max_size comparison with 0 is on a size_t
value, so only equality with zero can fire. -/
def pgexporter_validate_configuration (env : FsEnv) (cfg0 : Config) : Nat × Config :=
  if cfg0.host = "" then (1, cfg0)
  else if cfg0.unix_socket_dir = "" then (1, cfg0)
  else if !(env.is_dir cfg0.unix_socket_dir) then (1, cfg0)
  else if cfg0.metrics = -1 ∧ cfg0.bridge = -1 then (1, cfg0)
  else if cfg0.bridge = -1 ∧ cfg0.bridge_json ≠ -1 then (1, cfg0)
  else if cfg0.bridge_json ≠ -1 ∧ cfg0.bridge_json_cache_max_size = 0 then (1, cfg0)
  else
    let c4 := validate_mutations env cfg0
    if c4.number_of_servers = 0 then (1, c4)
    else if servers_ok c4 then (0, c4) else (1, c4)

/-- pgexporter_validate_users_configuration: at least one user, and
every server user known. -/
def pgexporter_validate_users_configuration (cfg : Config) : Nat :=
  if cfg.users.length = 0 then 1
  else if (List.range cfg.number_of_servers).all
      (fun i => cfg.users.any (fun u => u.username = (get_server cfg i).username)) then 0
  else 1

/-- pgexporter_validate_admins_configuration: only warnings, always 0. -/
def pgexporter_validate_admins_configuration (_cfg : Config) : Nat := 0

/-! ### transfer_configuration -/

/-- restart_int: logs and reports a restart when the existing and the
new value differ; nothing is assigned. -/
def restart_int (_name : String) (e n : Int) : Bool := e ≠ n

/-- restart_string: logs and reports a restart when the existing and
the new string differ; nothing is assigned. -/
def restart_string (_name : String) (e n : String) : Bool := e ≠ n

/-- copy_server applied to a zeroed destination slot: name, host, port,
username, data, wal, extensions and fd are copied; the TLS material of
the source server is not copied and stays zeroed. -/
def copy_server (src : Server) : Server :=
  { empty_server with
    name := src.name, host := src.host, port := src.port
    username := src.username, data := src.data, wal := src.wal
    extensions_config := src.extensions_config, fd := src.fd }

/-- copy_user applied to a zeroed destination slot. -/
def copy_user (src : User) : User :=
  { username := src.username, password := src.password }

/-- copy_endpoint applied to a destination slot. -/
def copy_endpoint (src : Endpoint) : Endpoint :=
  { host := src.host, port := src.port }

/-- The host:port rendering of the endpoint list that
transfer_configuration compares across a reload; an empty list renders
as the empty string. -/
def render_endpoints (eps : List Endpoint) : String :=
  String.intercalate "," (eps.map (fun e => e.host ++ ":" ++ toString e.port))

/-- transfer_configuration: the new configuration is copied onto the
live one field by field; the restart-flagged fields are only compared
(and left at their live values) while everything else, including the
endpoint array, is overwritten; the log parameters are restarted as a
block when one of them changed.  Returns the restart flag and the new
live configuration. -/
def transfer_configuration (config reload : Config) : Bool × Config :=
  let ch1 := restart_int "metrics_cache_max_size"
      (config.metrics_cache_max_size : Int) (reload.metrics_cache_max_size : Int)
  let ch2 := restart_int "bridge" config.bridge reload.bridge
  let ch3 := restart_string "bridge_endpoints"
      (render_endpoints config.endpoints) (render_endpoints reload.endpoints)
  let ch4 := restart_int "bridge_cache_max_size"
      (config.bridge_cache_max_size : Int) (reload.bridge_cache_max_size : Int)
  let ch5 := restart_int "bridge_json" config.bridge_json reload.bridge_json
  let ch6 := restart_int "bridge_json_cache_max_size"
      (config.bridge_json_cache_max_size : Int) (reload.bridge_json_cache_max_size : Int)
  let ch7 := restart_int "log_type" config.log_type reload.log_type
  let ch8 := restart_string "pidfile" config.pidfile reload.pidfile
  let ch9 := restart_string "libev" config.libev reload.libev
  let ch10 := restart_int "hugepage" config.hugepage reload.hugepage
  let ch11 := restart_int "update_process_title"
      (config.update_process_title : Int) (reload.update_process_title : Int)
  let ch12 := restart_string "unix_socket_dir" config.unix_socket_dir reload.unix_socket_dir
  let changed := ch1 || ch2 || ch3 || ch4 || ch5 || ch6 || ch7 || ch8 || ch9 ||
      ch10 || ch11 || ch12
  let log_restart := config.log_path ≠ reload.log_path ∨
      config.log_rotation_size ≠ reload.log_rotation_size ∨
      config.log_rotation_age ≠ reload.log_rotation_age ∨
      config.log_mode ≠ reload.log_mode
  let c1 := { config with
    host := reload.host
    metrics := reload.metrics
    metrics_cache_max_age := reload.metrics_cache_max_age
    bridge_cache_max_age := reload.bridge_cache_max_age
    management := reload.management
    cache := reload.cache
    log_level := reload.log_level }
  let c2 :=
    if log_restart then
      { c1 with
        log_rotation_size := reload.log_rotation_size
        log_rotation_age := reload.log_rotation_age
        log_mode := reload.log_mode
        log_line_pfx := reload.log_line_pfx
        log_path := reload.log_path }
    else c1
  let c3 := { c2 with
    tls := reload.tls
    tls_cert_file := reload.tls_cert_file
    tls_key_file := reload.tls_key_file
    tls_ca_file := reload.tls_ca_file
    metrics_cert_file := reload.metrics_cert_file
    metrics_key_file := reload.metrics_key_file
    metrics_ca_file := reload.metrics_ca_file
    blocking_timeout := reload.blocking_timeout
    authentication_timeout := reload.authentication_timeout
    keep_alive := reload.keep_alive
    nodelay := reload.nodelay
    non_blocking := reload.non_blocking
    backlog := reload.backlog
    servers := reload.servers.map copy_server
    number_of_servers := reload.number_of_servers
    users := reload.users.map copy_user
    admins := reload.admins.map copy_user
    metrics_path := reload.metrics_path
    endpoints := reload.endpoints.map copy_endpoint }
  (changed, c3)

/-! ### pgexporter_reload_configuration -/

/-- The external reading steps of the reload pipeline.
Modelled from the spec: pgexporter_read_users_configuration and
pgexporter_read_admins_configuration decrypt credential files (aes.c
and security.c are not under src), pgexporter_read_internal_yaml_metrics
and pgexporter_read_metrics_configuration load the metric catalog
(yaml_configuration.c is not under src); each step reads files and
either updates the candidate configuration or fails.  The main
configuration file is given as its lines, or nothing when the file
cannot be opened. -/
structure ReloadInputs where
  main_file : Option (List String)
  read_users : Config → Option Config
  read_admins : Config → Option Config
  read_yaml : Config → Option Config
  read_metrics : Config → Option Config

/-- The outcome of a reload: the process can exit inside
pgexporter_read_configuration on a duplicated server name, or the call
returns with a code, the restart flag and the (possibly updated) live
configuration. -/
inductive ReloadResult where
  | exited : ReloadResult
  | returned (rc : Nat) (r : Bool) (live : Config) : ReloadResult
deriving DecidableEq, Repr

/-- The candidate-building prefix of pgexporter_reload_configuration:
initialise a fresh configuration, read the main file, the users, the
admins (when an admins path is configured), the internal YAML metrics
and the metrics path (when configured), then run the three validation
steps.  Produces the validated candidate, a failure, or the process
exit. -/
def reload_candidate (inp : ReloadInputs) (env : FsEnv) (live : Config) :
    Except Unit (Option Config) :=
  match inp.main_file with
  | none => .ok none
  | some lines =>
    match pgexporter_read_configuration pgexporter_init_configuration lines with
    | .error _ => .error ()
    | .ok c1 =>
      match inp.read_users c1 with
      | none => .ok none
      | some c2 =>
        match (if live.admins_path ≠ "" then inp.read_admins c2 else some c2) with
        | none => .ok none
        | some c3 =>
          match inp.read_yaml c3 with
          | none => .ok none
          | some c4 =>
            match (if c4.metrics_path ≠ "" then inp.read_metrics c4 else some c4) with
            | none => .ok none
            | some c5 =>
              let v := pgexporter_validate_configuration env c5
              if v.1 ≠ 0 then .ok none
              else if pgexporter_validate_users_configuration v.2 ≠ 0 then .ok none
              else if pgexporter_validate_admins_configuration v.2 ≠ 0 then .ok none
              else .ok (some v.2)

/-- pgexporter_reload_configuration: on any failed step the function
returns 1 with the restart flag false and the live configuration
untouched; only after every read and validation step succeeded is
transfer_configuration applied to the live configuration. -/
def pgexporter_reload_configuration (inp : ReloadInputs) (env : FsEnv) (live : Config) :
    ReloadResult :=
  match reload_candidate inp env live with
  | .error _ => .exited
  | .ok none => .returned 1 false live
  | .ok (some cand) =>
    let p := transfer_configuration live cand
    .returned 0 p.1 p.2

/-! ### conf set: key validation and application

The CONFIGURATION_ARGUMENT and CONFIGURATION_SERVER_ARGUMENT constants
live in management.h, which is not under src; they are modelled as the
literal key names used by the configuration file. -/

/-- struct config_key_info. -/
structure ConfigKeyInfo where
  sect : String
  context : String
  key : String
  is_main_sect : Bool
  section_type : Nat
deriving DecidableEq, Repr

/-- is_valid_config_key: no leading, trailing or consecutive dots, at
most two dots; one part is a main key, two parts require the pgexporter
section, three parts require the server section and an existing server
of that name.  The strncmp comparisons with MISC_LENGTH are total string
comparisons for the name lengths the parser stores. -/
def is_valid_config_key (cfg : Config) (config_key : String) : Option ConfigKeyInfo :=
  let cs := config_key.toList
  if cs = [] then none
  else if cs.head? = some '.' ∨ cs.getLast? = some '.' then none
  else if (cs.zip cs.tail).any (fun p => p.1 = '.' ∧ p.2 = '.') then none
  else if cs.count '.' > 2 then none
  else
    match cs.splitOn '.' with
    | [k] =>
      some { sect := "pgexporter", context := "", key := k.asString
             is_main_sect := true, section_type := 0 }
    | [s, k] =>
      if s.asString = "pgexporter" then
        some { sect := "pgexporter", context := "", key := k.asString
               is_main_sect := true, section_type := 0 }
      else none
    | [s, c, k] =>
      if s.asString = "server" then
        if (List.range cfg.number_of_servers).any
            (fun i => (get_server cfg i).name = c.asString) then
          some { sect := "server", context := c.asString, key := k.asString
                 is_main_sect := false, section_type := 1 }
        else none
      else none
    | _ => none

/-- The server branch of apply_main_configuration: an unknown key or a
failed parse reports an error. -/
def apply_srv_key (srv : Server) (key value : String) : Option Server :=
  let t127 := truncStr (MISC_LENGTH - 1)
  let t1023 := truncStr (MAX_PATH - 1)
  if key = "host" then some { srv with host := t127 value }
  else if key = "port" then
    match as_int value with
    | some v => some { srv with port := v }
    | none => none
  else if key = "user" then
    some { srv with username := truncStr (MAX_USERNAME_LENGTH - 1) value }
  else if key = "data_dir" then some { srv with data := t127 value }
  else if key = "wal_dir" then some { srv with wal := t127 value }
  else if key = "tls_cert_file" then some { srv with tls_cert_file := t1023 value }
  else if key = "tls_key_file" then some { srv with tls_key_file := t1023 value }
  else if key = "tls_ca_file" then some { srv with tls_ca_file := t1023 value }
  else none

/-- The main branch of apply_main_configuration, in source order; an
unknown key or a failed parse reports an error (the partially mutated
temporary is discarded by the caller).  Unlike the file reader, the
cache sizes are not clamped here and the size parsers run with default
0; bridge_endpoints runs with reload = true, so its duplicate check is
skipped. -/
def apply_cfg_key (cfg : Config) (key value : String) : Option Config :=
  let t127 := truncStr (MISC_LENGTH - 1)
  let t1023 := truncStr (MAX_PATH - 1)
  if key = "host" then some { cfg with host := t127 value }
  else if key = "metrics" then
    match as_int value with
    | some v => some { cfg with metrics := v }
    | none => none
  else if key = "metrics_cache_max_age" then
    let r := as_seconds value 0
    if r.1 = 0 then some { cfg with metrics_cache_max_age := r.2 } else none
  else if key = "metrics_cache_max_size" then
    let r := as_bytes value 0
    if r.1 = 0 then some { cfg with metrics_cache_max_size := r.2.toNat } else none
  else if key = "management" then
    match as_int value with
    | some v => some { cfg with management := v }
    | none => none
  else if key = "bridge" then
    match as_int value with
    | some v => some { cfg with bridge := v }
    | none => none
  else if key = "bridge_cache_max_age" then
    let r := as_seconds value 0
    if r.1 = 0 then some { cfg with bridge_cache_max_age := r.2 } else none
  else if key = "bridge_cache_max_size" then
    let r := as_bytes value 0
    if r.1 = 0 then some { cfg with bridge_cache_max_size := r.2.toNat } else none
  else if key = "bridge_json" then
    match as_int value with
    | some v => some { cfg with bridge_json := v }
    | none => none
  else if key = "bridge_json_cache_max_size" then
    let r := as_bytes value 0
    if r.1 = 0 then some { cfg with bridge_json_cache_max_size := r.2.toNat } else none
  else if key = "bridge_endpoints" then
    let r := as_endpoints value cfg true
    if r.1 = 0 then some r.2 else none
  else if key = "cache" then
    match as_bool value with
    | some b => some { cfg with cache := b }
    | none => none
  else if key = "log_level" then some { cfg with log_level := as_logging_level value }
  else if key = "log_type" then some { cfg with log_type := as_logging_type value }
  else if key = "log_path" then some { cfg with log_path := t127 value }
  else if key = "log_mode" then some { cfg with log_mode := as_logging_mode value }
  else if key = "log_rotation_size" then
    let r := as_logging_rotation_size value
    if r.1 = 0 then some { cfg with log_rotation_size := r.2 } else none
  else if key = "log_rotation_age" then
    let r := as_logging_rotation_age value
    if r.1 = 0 then some { cfg with log_rotation_age := r.2 } else none
  else if key = "log_line_prefix" then some { cfg with log_line_pfx := t127 value }
  else if key = "tls" then
    match as_bool value with
    | some b => some { cfg with tls := b }
    | none => none
  else if key = "tls_cert_file" then some { cfg with tls_cert_file := t1023 value }
  else if key = "tls_key_file" then some { cfg with tls_key_file := t1023 value }
  else if key = "tls_ca_file" then some { cfg with tls_ca_file := t1023 value }
  else if key = "metrics_cert_file" then some { cfg with metrics_cert_file := t1023 value }
  else if key = "metrics_key_file" then some { cfg with metrics_key_file := t1023 value }
  else if key = "metrics_ca_file" then some { cfg with metrics_ca_file := t1023 value }
  else if key = "blocking_timeout" then
    match as_int value with
    | some v => some { cfg with blocking_timeout := v }
    | none => none
  else if key = "authentication_timeout" then
    match as_int value with
    | some v => some { cfg with authentication_timeout := v }
    | none => none
  else if key = "pidfile" then some { cfg with pidfile := t1023 value }
  else if key = "update_process_title" then
    some { cfg with update_process_title := as_update_process_title value UPDATE_PROCESS_TITLE_VERBOSE }
  else if key = "libev" then some { cfg with libev := t127 value }
  else if key = "keep_alive" then
    match as_bool value with
    | some b => some { cfg with keep_alive := b }
    | none => none
  else if key = "nodelay" then
    match as_bool value with
    | some b => some { cfg with nodelay := b }
    | none => none
  else if key = "non_blocking" then
    match as_bool value with
    | some b => some { cfg with non_blocking := b }
    | none => none
  else if key = "backlog" then
    match as_int value with
    | some v => some { cfg with backlog := v }
    | none => none
  else if key = "hugepage" then some { cfg with hugepage := as_hugepage value }
  else if key = "unix_socket_dir" then some { cfg with unix_socket_dir := t127 value }
  else if key = "metrics_path" then some { cfg with metrics_path := t1023 value }
  else none

/-- apply_configuration: a temporary copy of the live configuration
receives the one change, is validated, and transfer_configuration then
copies it back onto the live configuration; the restart flag is whatever
transfer_configuration reports.  A failed application or validation
leaves the live configuration untouched. -/
def apply_configuration (env : FsEnv) (current : Config) (ki : ConfigKeyInfo)
    (config_value : String) : Option (Bool × Config) :=
  let tempOpt : Option Config :=
    match ki.section_type with
    | 0 => apply_cfg_key current ki.key config_value
    | 1 =>
      match (List.range current.number_of_servers).find?
          (fun i => (get_server current i).name = ki.context) with
      | some i =>
        match apply_srv_key (get_server current i) ki.key config_value with
        | some s2 => some { current with servers := current.servers.set i s2 }
        | none => none
      | none => some current
    | _ => none
  match tempOpt with
  | none => none
  | some t2 =>
    let v := pgexporter_validate_configuration env t2
    if v.1 ≠ 0 then none
    else some (transfer_configuration current v.2)

/-- write_config_value: renders the current value of a key, as the
conf set handler does before and after applying a change. -/
def write_config_value (cfg : Config) (config_key : String) : Option String :=
  match is_valid_config_key cfg config_key with
  | none => none
  | some ki =>
    if ki.section_type = 0 then
      if ki.key = "host" then some cfg.host
      else if ki.key = "metrics" then some (toString cfg.metrics)
      else if ki.key = "metrics_cache_max_age" then some (toString cfg.metrics_cache_max_age)
      else if ki.key = "metrics_cache_max_size" then some (toString cfg.metrics_cache_max_size)
      else if ki.key = "management" then some (toString cfg.management)
      else if ki.key = "bridge" then some (toString cfg.bridge)
      else if ki.key = "bridge_cache_max_age" then some (toString cfg.bridge_cache_max_age)
      else if ki.key = "bridge_cache_max_size" then some (toString cfg.bridge_cache_max_size)
      else if ki.key = "bridge_json" then some (toString cfg.bridge_json)
      else if ki.key = "bridge_json_cache_max_size" then
        some (toString cfg.bridge_json_cache_max_size)
      else if ki.key = "cache" then some (if cfg.cache then "true" else "false")
      else if ki.key = "log_level" then some (toString cfg.log_level)
      else if ki.key = "log_type" then some (toString cfg.log_type)
      else if ki.key = "log_path" then some cfg.log_path
      else if ki.key = "log_mode" then some (toString cfg.log_mode)
      else if ki.key = "log_rotation_size" then some (toString cfg.log_rotation_size)
      else if ki.key = "log_rotation_age" then some (toString cfg.log_rotation_age)
      else if ki.key = "log_line_prefix" then some cfg.log_line_pfx
      else if ki.key = "tls" then some (if cfg.tls then "true" else "false")
      else if ki.key = "tls_cert_file" then some cfg.tls_cert_file
      else if ki.key = "tls_key_file" then some cfg.tls_key_file
      else if ki.key = "tls_ca_file" then some cfg.tls_ca_file
      else if ki.key = "metrics_cert_file" then some cfg.metrics_cert_file
      else if ki.key = "metrics_key_file" then some cfg.metrics_key_file
      else if ki.key = "metrics_ca_file" then some cfg.metrics_ca_file
      else if ki.key = "blocking_timeout" then some (toString cfg.blocking_timeout)
      else if ki.key = "authentication_timeout" then some (toString cfg.authentication_timeout)
      else if ki.key = "pidfile" then some cfg.pidfile
      else if ki.key = "update_process_title" then some (toString cfg.update_process_title)
      else if ki.key = "libev" then some cfg.libev
      else if ki.key = "keep_alive" then some (if cfg.keep_alive then "true" else "false")
      else if ki.key = "nodelay" then some (if cfg.nodelay then "true" else "false")
      else if ki.key = "non_blocking" then some (if cfg.non_blocking then "true" else "false")
      else if ki.key = "backlog" then some (toString cfg.backlog)
      else if ki.key = "hugepage" then some (toString cfg.hugepage)
      else if ki.key = "unix_socket_dir" then some cfg.unix_socket_dir
      else if ki.key = "metrics_path" then some cfg.metrics_path
      else none
    else if ki.section_type = 1 then
      match (List.range cfg.number_of_servers).find?
          (fun i => (get_server cfg i).name = ki.context) with
      | some i =>
        let srv := get_server cfg i
        if ki.key = "host" then some srv.host
        else if ki.key = "port" then some (toString srv.port)
        else if ki.key = "user" then some srv.username
        else if ki.key = "data_dir" then some srv.data
        else if ki.key = "wal_dir" then some srv.wal
        else if ki.key = "tls_cert_file" then some srv.tls_cert_file
        else if ki.key = "tls_key_file" then some srv.tls_key_file
        else if ki.key = "tls_ca_file" then some srv.tls_ca_file
        else none
      | none => none
    else none

/-- The observable outcome of pgexporter_conf_set: an error response
with a code, or an ok response that either reports restart-required with
the requested and the current value, or reports success with the old and
the new value. -/
inductive ConfSetOutcome where
  | err (code : Nat) : ConfSetOutcome
  | restart (config_key requested_value current_value : String) : ConfSetOutcome
  | applied (config_key old_value new_value : String) : ConfSetOutcome
deriving DecidableEq, Repr

/-! ### Specification-side functions used to settle individual claims -/

/-- A line that the reader treats as a section header: it opens with a
bracket and the rest of the line holds a closing bracket. -/
def is_section_line (l : String) : Bool :=
  l.toList.head? = some '[' && (l.toList.drop 1).contains ']'

/-- The surrounding-whitespace trim the way the claim words it,
right-to-left first. -/
def claim_trim (l : List Char) : List Char :=
  (l.reverse.dropWhile isWsC).reverse.dropWhile isWsC

/-- The claim as stated strips one leading prefix: https:// when
present, otherwise http:// when present. -/
def claim_strip_one_lead (l : List Char) : List Char :=
  if l.take 8 = "https://".toList then l.drop 8
  else if l.take 7 = "http://".toList then l.drop 7
  else l

/-- The trailing /metrics strip of the claim. -/
def claim_strip_metrics_suf (l : List Char) : List Char :=
  if l.drop (l.length - 8) = "/metrics".toList ∧ 8 ≤ l.length then l.take (l.length - 8)
  else l

/-- The trailing slash strip of the claim: drop the last character when
it is a slash. -/
def claim_strip_slash (l : List Char) : List Char :=
  if l.getLast? = some '/' then l.take (l.length - 1) else l

/-- The endpoint normalization exactly as claim C5 states it: trim,
strip one leading https:// or http:// prefix, strip a trailing
/metrics, strip a trailing /. -/
def claim_c5_normalize (s : String) : String :=
  (claim_strip_slash (claim_strip_metrics_suf (claim_strip_one_lead
    (claim_trim s.toList)))).asString

/-- The amended normalization: identical except that a leading https://
and a leading http:// are stripped one after the other, as the source
applies both removals in sequence. -/
def claim_c5_amended_normalize (s : String) : String :=
  let l1 := claim_trim s.toList
  let l2a := if l1.take 8 = "https://".toList then l1.drop 8 else l1
  let l2 := if l2a.take 7 = "http://".toList then l2a.drop 7 else l2a
  (claim_strip_slash (claim_strip_metrics_suf l2)).asString

/-- The multiplier letter of as_bytes and its factor. -/
def unit_mult (c : Char) : Option Int :=
  if c = 'M' || c = 'm' then some (1024 * 1024)
  else if c = 'G' || c = 'g' then some (1024 * 1024 * 1024)
  else if c = 'K' || c = 'k' then some 1024
  else if c = 'B' || c = 'b' then some 1
  else none

/-- The letter discipline of as_bytes, on the subsequence of letters of
the input: before a unit is set, a recognized unit letter sets it and
any other letter is ignored; after a unit is set, only b or B is
allowed, and only when the unit is not the times-one unit. -/
def letters_mult : List Char → Int → Bool → Option Int
  | [], mult, _ => some mult
  | c :: rest, mult, mset =>
    if mset then
      if mult = 1 || (c ≠ 'b' && c ≠ 'B') then none
      else letters_mult rest mult mset
    else
      match unit_mult c with
      | some m => letters_mult rest m true
      | none => letters_mult rest mult mset

/-- The amended functional specification of as_bytes: an empty or
whitespace-only string yields the default with success; a string with
any character that is neither a digit nor a letter yields the default
with a parse failure; otherwise the digit characters in order form the
number, the letter subsequence must satisfy the letter discipline of
letters_mult and must leave at least one digit, and the result is the
number times the multiplier. -/
def bytes_claim_spec (s : String) (d : Int) : Nat × Int :=
  let cs := s.toList
  if is_empty_string s then (0, d)
  else if !(cs.all fun c => c.isDigit || c.isAlpha) then (1, d)
  else
    let ds := cs.filter (fun c => c.isDigit)
    match letters_mult (cs.filter (fun c => c.isAlpha)) 1 false with
    | none => (1, d)
    | some mult => if ds = [] then (1, d) else (0, (digits_to_nat ds : Int) * mult)

/-- pgexporter_conf_set on an extracted key and value: validate the key,
render the old value, apply the change, and build the ok response; the
function returns 0 exactly when an ok response is built, and the live
configuration is whatever transfer_configuration left behind. -/
def pgexporter_conf_set (env : FsEnv) (cfg : Config) (config_key config_value : String) :
    ConfSetOutcome × Config :=
  match is_valid_config_key cfg config_key with
  | none => (.err 1, cfg)
  | some ki =>
    let old_value := (write_config_value cfg config_key).getD "<unknown>"
    match apply_configuration env cfg ki config_value with
    | none => (.err 1, cfg)
    | some p =>
      let new_value := (write_config_value p.2 config_key).getD "<unknown>"
      if p.1 then (.restart config_key config_value old_value, p.2)
      else (.applied config_key old_value new_value, p.2)

/-! ### Concrete fixtures used by the closed statements -/

/-- A filesystem in which every path is a directory and every file
exists. -/
def env_all_true : FsEnv := { is_dir := fun _ => true, file_exists := fun _ => true }

/-- A well-formed server record. -/
def sample_server : Server :=
  { empty_server with name := "primary", host := "localhost", port := 5432
                      username := "pgexporter", fd := -1 }

/-- A well-formed live configuration: metrics and bridge enabled, one
server, one user, one bridge endpoint. -/
def sample_config : Config :=
  { pgexporter_init_configuration with
    host := "localhost", unix_socket_dir := "/tmp", metrics := 5001
    bridge := 5002, endpoints := [{ host := "h1", port := 1 }]
    servers := [sample_server], number_of_servers := 1
    users := [{ username := "pgexporter", password := "secret" }] }

/-- Reload inputs whose main configuration file cannot be opened; every
other step succeeds unchanged. -/
def reload_inputs_fail : ReloadInputs :=
  { main_file := none, read_users := fun c => some c, read_admins := fun c => some c
    read_yaml := fun c => some c, read_metrics := fun c => some c }

/-- A configuration file with an unrecognized key foo in the main
section. -/
def file_with_unknown_key : List String :=
  ["[pgexporter]", "host = localhost", "unix_socket_dir = /tmp", "metrics = 5001",
   "foo = bar",
   "[primary]", "host = localhost", "port = 5432", "user = pgexporter"]

/-- The same file without the unrecognized key. -/
def file_without_unknown_key : List String :=
  ["[pgexporter]", "host = localhost", "unix_socket_dir = /tmp", "metrics = 5001",
   "[primary]", "host = localhost", "port = 5432", "user = pgexporter"]

/-- Whether reading the given lines completes without the duplicate-name
exit. -/
def read_is_ok (cfg : Config) (lines : List String) : Bool :=
  match pgexporter_read_configuration cfg lines with
  | .ok _ => true
  | .error _ => false

/-- The configuration resulting from a completed read, or the zero
configuration when the read exited. -/
def read_cfg_or_zero (cfg : Config) (lines : List String) : Config :=
  match pgexporter_read_configuration cfg lines with
  | .ok c => c
  | .error _ => zero_config

/-- A live configuration that differs from sample_config in a
restart-flagged field (metrics_cache_max_size) and in a freely copied
field (host). -/
def c2_live : Config :=
  { sample_config with host := "a", metrics_cache_max_size := 1 }

/-- The candidate for c2_live. -/
def c2_cand : Config :=
  { sample_config with host := "b", metrics_cache_max_size := 2 }

/-- The endpoint list of concrete scenario 5 of the spec. -/
def c6_value : String := "http://h1/metrics, h2:9090/metrics/, h1:9090"

/-! ## Theorems -/

/-! ### Claim C1: reload validates fully before touching the live
configuration -/

/-- C1: pgexporter_reload_configuration builds and validates the whole
candidate before the swap: when a read or validation step fails, the
call returns 1, reports no restart and leaves the live configuration
object entirely unchanged; and whenever the call returns with a nonzero
code, the live configuration is the one it started with and no restart
is reported. -/
theorem c1_reload_failure_leaves_live_unchanged
    (inp : ReloadInputs) (env : FsEnv) (live : Config) :
    (reload_candidate inp env live = .ok none →
      pgexporter_reload_configuration inp env live = .returned 1 false live) ∧
    (∀ rc r live2, pgexporter_reload_configuration inp env live = .returned rc r live2 →
      rc ≠ 0 → rc = 1 ∧ r = false ∧ live2 = live) := by
  constructor
  · intro h
    unfold pgexporter_reload_configuration
    rw [h]
  · intro rc r live2 h hrc
    unfold pgexporter_reload_configuration at h
    cases hc : reload_candidate inp env live with
    | error e => rw [hc] at h; cases h
    | ok o =>
      cases o with
      | none =>
        rw [hc] at h
        cases h
        exact ⟨rfl, rfl, rfl⟩
      | some cand =>
        rw [hc] at h
        cases h
        exact absurd rfl hrc

/-- Witness for C1 at a concrete failing input: the main configuration
file cannot be opened, so the reload returns 1 and the sample live
configuration survives untouched. -/
theorem c1_witness :
    pgexporter_reload_configuration reload_inputs_fail env_all_true sample_config =
      .returned 1 false sample_config :=
  (c1_reload_failure_leaves_live_unchanged reload_inputs_fail env_all_true sample_config).1 rfl

/-! ### Claim C4: unknown keys at load -/

/-- C4 counterexample: a configuration file with the unrecognized key
foo loads without any error and validates cleanly, so the initial load
is not fatal on an unknown key. -/
theorem c4_counterexample :
    read_is_ok pgexporter_init_configuration file_with_unknown_key = true ∧
    (pgexporter_validate_configuration env_all_true
        (read_cfg_or_zero pgexporter_init_configuration file_with_unknown_key)).1 = 0 :=
  ⟨rfl, rfl⟩

/-- C4 amended: an unknown key at load is logged and otherwise ignored:
the read succeeds, the resulting configuration is exactly the one of
the file without that key, and validation passes; only the conf set
path (apply_main_configuration) rejects an unknown key with an error. -/
theorem c4_amended_unknown_keys_ignored_at_load :
    read_is_ok pgexporter_init_configuration file_with_unknown_key = true ∧
    read_cfg_or_zero pgexporter_init_configuration file_with_unknown_key =
      read_cfg_or_zero pgexporter_init_configuration file_without_unknown_key ∧
    (pgexporter_validate_configuration env_all_true
        (read_cfg_or_zero pgexporter_init_configuration file_with_unknown_key)).1 = 0 ∧
    (∀ (cfg : Config) (value : String), apply_cfg_key cfg "foo" value = none) ∧
    (∀ (srv : Server) (value : String), apply_srv_key srv "foo" value = none) :=
  ⟨rfl, rfl, rfl, fun _ _ => rfl, fun _ _ => rfl⟩

/-! ### Claim C6: the three-endpoint scenario -/

/-- C6 counterexample: on the endpoint list of the scenario the first
entry has no port, sscanf fails on it, and as_endpoints rejects the
whole directive: the return code is 1 and no endpoint at all is
stored — the three endpoints are not accepted. -/
theorem c6_counterexample :
    (as_endpoints c6_value pgexporter_init_configuration false).1 = 1 ∧
    (as_endpoints c6_value pgexporter_init_configuration false).2.endpoints = [] :=
  ⟨rfl, rfl⟩

/-- C6 amended: an endpoint without a port makes as_endpoints reject
the entire directive (nothing is stored); without it, h2:9090/metrics/
normalizes to h2:9090 and h1:9090 is stored as a distinct endpoint; a
further entry with an identical host and port is skipped at load while
the directive still succeeds. -/
theorem c6_amended_portless_endpoint_rejects_directive :
    (as_endpoints c6_value pgexporter_init_configuration false).1 = 1 ∧
    (as_endpoints c6_value pgexporter_init_configuration false).2.endpoints = [] ∧
    (as_endpoints "h2:9090/metrics/, h1:9090" pgexporter_init_configuration false).1 = 0 ∧
    (as_endpoints "h2:9090/metrics/, h1:9090" pgexporter_init_configuration false).2.endpoints =
      [{ host := "h2", port := 9090 }, { host := "h1", port := 9090 }] ∧
    (as_endpoints "h2:9090/metrics/, h1:9090, h1:9090" pgexporter_init_configuration false).1 = 0 ∧
    (as_endpoints "h2:9090/metrics/, h1:9090, h1:9090" pgexporter_init_configuration false).2.endpoints =
      [{ host := "h2", port := 9090 }, { host := "h1", port := 9090 }] :=
  ⟨rfl, rfl, rfl, rfl, rfl, rfl⟩

/-! ### Claim C3: duplicate endpoints -/

/-- C3 counterexample: with the reload flag (the conf set path) a
duplicated host:port endpoint is not rejected: parsing h:1,h:1 succeeds
and stores the same endpoint twice. -/
theorem c3_counterexample :
    (as_endpoints "h:1,h:1" pgexporter_init_configuration true).1 = 0 ∧
    (as_endpoints "h:1,h:1" pgexporter_init_configuration true).2.endpoints =
      [{ host := "h", port := 1 }, { host := "h", port := 1 }] :=
  ⟨rfl, rfl⟩

/-- The load-path loop of as_endpoints preserves distinctness: a new
endpoint is appended only after the duplicate scan over the stored slots
found no entry with the same host and port. -/
theorem as_endpoints_loop_nodup (tokens : List (List Char)) :
    ∀ (acc : List Endpoint), acc.Nodup →
    ∀ eps, as_endpoints_loop false tokens acc = some eps → eps.Nodup := by
  induction tokens with
  | nil =>
    intro acc hacc eps h
    unfold as_endpoints_loop at h
    cases h
    exact hacc
  | cons tok rest ih =>
    intro acc hacc eps h
    unfold as_endpoints_loop at h
    split at h
    · split at h
      case h_1 host port heq =>
        split at h
        · exact ih acc hacc eps h
        case isFalse hfound =>
          refine ih _ ?_ eps h
          rw [List.nodup_append]
          refine ⟨hacc, List.nodup_singleton _, ?_⟩
          intro e he he2
          rw [List.mem_singleton] at he2
          subst he2
          apply hfound
          simp only [Bool.not_false, Bool.true_and, List.any_eq_true]
          exact ⟨_, List.mem_append_left _ he, by simp⟩
      case h_2 => exact absurd h (by simp)
    · cases h
      exact hacc

/-- C3 amended: at initial load (the reload flag false, used both by the
first read and by the conf reload re-read) a duplicated host:port
endpoint is skipped with a warning, so the stored endpoints are pairwise
distinct and the directive still succeeds; on the conf set path (the
reload flag true) duplicates are not detected and are stored twice. -/
theorem c3_amended_duplicates_skipped_at_load_only :
    (∀ (s : String) (cfg : Config), ((as_endpoints s cfg false).2.endpoints).Nodup) ∧
    (as_endpoints "h:1,h:1" pgexporter_init_configuration false).1 = 0 ∧
    (as_endpoints "h:1,h:1" pgexporter_init_configuration false).2.endpoints =
      [{ host := "h", port := 1 }] ∧
    (as_endpoints "h:1,h:1" pgexporter_init_configuration true).2.endpoints =
      [{ host := "h", port := 1 }, { host := "h", port := 1 }] := by
  refine ⟨?_, rfl, rfl, rfl⟩
  intro s cfg
  simp only [as_endpoints]
  split
  case h_1 eps heq => simpa using as_endpoints_loop_nodup _ [] List.nodup_nil eps heq
  case h_2 => simp

/-! ### Validation helper lemmas -/

/-- validate_mutations only touches backlog and the metrics TLS
material; every field the restart comparison or the claims look at is
preserved. -/
theorem validate_mutations_fields (env : FsEnv) (cfg : Config) :
    (validate_mutations env cfg).servers = cfg.servers ∧
    (validate_mutations env cfg).number_of_servers = cfg.number_of_servers ∧
    (validate_mutations env cfg).metrics_cache_max_size = cfg.metrics_cache_max_size ∧
    (validate_mutations env cfg).bridge = cfg.bridge ∧
    (validate_mutations env cfg).endpoints = cfg.endpoints ∧
    (validate_mutations env cfg).bridge_cache_max_size = cfg.bridge_cache_max_size ∧
    (validate_mutations env cfg).bridge_json = cfg.bridge_json ∧
    (validate_mutations env cfg).bridge_json_cache_max_size = cfg.bridge_json_cache_max_size ∧
    (validate_mutations env cfg).log_type = cfg.log_type ∧
    (validate_mutations env cfg).pidfile = cfg.pidfile ∧
    (validate_mutations env cfg).libev = cfg.libev ∧
    (validate_mutations env cfg).hugepage = cfg.hugepage ∧
    (validate_mutations env cfg).update_process_title = cfg.update_process_title ∧
    (validate_mutations env cfg).unix_socket_dir = cfg.unix_socket_dir ∧
    (validate_mutations env cfg).metrics_cache_max_age = cfg.metrics_cache_max_age ∧
    (validate_mutations env cfg).host = cfg.host := by
  unfold validate_mutations clear_metrics_tls
  dsimp only
  split_ifs <;>
    exact ⟨rfl, rfl, rfl, rfl, rfl, rfl, rfl, rfl, rfl, rfl, rfl, rfl, rfl, rfl, rfl, rfl⟩

/-- When validation succeeds, the configuration it hands back is
exactly the mutated one. -/
theorem validate_ok_snd (env : FsEnv) (cfg : Config)
    (h : (pgexporter_validate_configuration env cfg).1 = 0) :
    (pgexporter_validate_configuration env cfg).2 = validate_mutations env cfg := by
  unfold pgexporter_validate_configuration at h ⊢
  dsimp only at h ⊢
  split_ifs at h ⊢ <;> simp_all

/-! ### Claim C8: bridge JSON requires the bridge and its cache -/

/-- C8: validation fails whenever bridge_json is configured while the
bridge is disabled or while the bridge JSON cache size is zero (the
size is a size_t, so it cannot be negative). -/
theorem c8_bridge_json_requires_bridge_and_cache (env : FsEnv) (cfg : Config)
    (hjson : cfg.bridge_json ≠ -1)
    (hdis : cfg.bridge = -1 ∨ cfg.bridge_json_cache_max_size = 0) :
    (pgexporter_validate_configuration env cfg).1 = 1 := by
  unfold pgexporter_validate_configuration
  split_ifs with h1 h2 h3 h4 h5 h6 h7 h8
  any_goals rfl
  rcases hdis with hb | hs
  · exact absurd ⟨hb, hjson⟩ h5
  · exact absurd ⟨hjson, hs⟩ h6

/-- Witness for C8: a configuration with bridge_json set but the bridge
left disabled fails validation. -/
theorem c8_witness :
    (pgexporter_validate_configuration env_all_true
      { sample_config with bridge := -1, bridge_json := 5003 }).1 = 1 :=
  c8_bridge_json_requires_bridge_and_cache env_all_true
    { sample_config with bridge := -1, bridge_json := 5003 }
    (by decide) (Or.inl rfl)

/-! ### Claim C7: reserved and duplicate server names -/

/-- Truncation does nothing to a string that already fits. -/
theorem truncStr_of_le (n : Nat) (s : String) (h : s.length ≤ n) : truncStr n s = s := by
  unfold truncStr
  rw [List.take_of_length_le, String.asString_toList]
  exact h

/-- as_endpoints never touches the server slots. -/
theorem as_endpoints_servers (s : String) (cfg : Config) (b : Bool) :
    (as_endpoints s cfg b).2.servers = cfg.servers := by
  simp only [as_endpoints]
  split <;> rfl

/-- The character list of a bracketed section header. -/
theorem section_header_toList (n : String) :
    ("[" ++ n ++ "]").toList = '[' :: (n.toList ++ [']']) := by
  show ("[" ++ n ++ "]").data = _
  rw [String.data_append, String.data_append]
  rfl

/-- takeWhile up to the closing bracket recovers the section body when
the body itself holds no closing bracket. -/
theorem takeWhile_ne_rb (l : List Char) (h : ']' ∉ l) :
    (l ++ [']']).takeWhile (fun c => c ≠ ']') = l := by
  induction l with
  | nil => simp
  | cons c t ih =>
    simp only [List.mem_cons, not_or] at h
    simp only [List.cons_append, List.takeWhile_cons]
    rw [if_pos (by simpa using Ne.symm h.1), ih h.2]

/-- Reading a section-header line: the pending server is stored (or the
process exits on a duplicate name) and a fresh server for the new
section begins. -/
theorem read_line_header (st : ReadState) (n : String)
    (hnb : ']' ∉ n.toList) (hlen : n.length ≤ MISC_LENGTH - 1) (hnp : n ≠ "pgexporter") :
    read_line st ("[" ++ n ++ "]") =
      match flush_pending st with
      | .error e => .error e
      | .ok st2 => .ok { st2 with sect := n, srv := new_server n
                                  idx_server := st2.idx_server + 1 } := by
  have htl := section_header_toList n
  have hwsb : isWsC '[' = false := rfl
  have hne : is_empty_string ("[" ++ n ++ "]") = false := by
    unfold is_empty_string
    rw [htl]
    simp [String.ext_iff, hwsb]
  unfold read_line
  rw [hne, htl]
  simp only [Bool.false_eq_true, if_false]
  unfold handle_section_line
  simp only [List.drop_succ_cons, List.drop_zero, if_pos rfl]
  rw [if_pos (by simp), takeWhile_ne_rb n.toList hnb]
  rw [List.take_of_length_le (by simpa using hlen), String.asString_toList]
  rw [if_pos hnp]
  rw [if_pos (by simp)]

/-- C7: validation fails whenever some server carries one of the
reserved names pgexporter or all; and the load exits whenever two server
sections carry the same name — shown for every file made of two
sections with the same (otherwise benign) name, and for a concrete file
in which the duplicate is not adjacent and the sections have bodies. -/
theorem c7_reserved_and_duplicate_server_names :
    (∀ (env : FsEnv) (cfg : Config) (i : Nat), i < cfg.number_of_servers →
      ((get_server cfg i).name = "pgexporter" ∨ (get_server cfg i).name = "all") →
      (pgexporter_validate_configuration env cfg).1 = 1) ∧
    (∀ n : String, n ≠ "" → n ≠ "pgexporter" → ']' ∉ n.toList →
      n.length ≤ MISC_LENGTH - 1 →
      pgexporter_read_configuration pgexporter_init_configuration
        ["[" ++ n ++ "]", "[" ++ n ++ "]"] = .error ()) ∧
    pgexporter_read_configuration pgexporter_init_configuration
      ["[s1]", "host = h", "port = 5432", "user = u",
       "[s2]", "host = h2", "[s1]", "host = h3"] = .error () := by
  refine ⟨?_, ?_, rfl⟩
  · intro env cfg i hi hname
    unfold pgexporter_validate_configuration
    dsimp only
    split_ifs with h1 h2 h3 h4 h5 h6 h7 h8
    any_goals rfl
    exfalso
    have hf := validate_mutations_fields env cfg
    unfold servers_ok at h8
    rw [List.all_eq_true] at h8
    have h9 := h8 i (List.mem_range.mpr (by rw [hf.2.1]; exact hi))
    simp only [get_server, hf.1, Bool.and_eq_true, decide_eq_true_eq] at h9
    unfold get_server at hname
    rcases hname with h | h
    · exact h9.1.1.1.1 h
    · exact h9.1.1.1.2 h
  · intro n h0 hp hb hl
    have e1 : read_line
        { cfg := pgexporter_init_configuration, sect := "", srv := empty_server
          idx_server := 0 } ("[" ++ n ++ "]") =
        .ok { cfg := pgexporter_init_configuration, sect := n, srv := new_server n
              idx_server := 1 } := by
      rw [read_line_header _ n hb hl hp]
      simp [flush_pending]
    have e2 : read_line
        { cfg := pgexporter_init_configuration, sect := n, srv := new_server n
          idx_server := 1 } ("[" ++ n ++ "]") =
        .ok { cfg := { pgexporter_init_configuration with servers := [new_server n] }
              sect := n, srv := new_server n, idx_server := 2 } := by
      rw [read_line_header _ n hb hl hp]
      simp [flush_pending, NUMBER_OF_SERVERS, pgexporter_init_configuration, zero_config]
    unfold pgexporter_read_configuration
    simp only [read_lines, e1, e2]
    unfold read_eof
    have hname : (new_server n).name = n := by
      unfold new_server
      simp only
      exact truncStr_of_le _ _ hl
    rw [if_pos (by rw [hname]; exact h0)]
    rw [if_pos ?_]
    simp only [List.range_succ, List.range_zero, List.nil_append, List.any_cons,
      List.any_nil, Bool.or_false, get_server]
    simp [hname]

/-- Witness for C7 at concrete inputs: a configuration whose first
server is named pgexporter fails validation, and a file with two
sections named primary exits at load. -/
theorem c7_witness :
    (pgexporter_validate_configuration env_all_true
      { sample_config with servers := [{ sample_server with name := "pgexporter" }] }).1 = 1 ∧
    pgexporter_read_configuration pgexporter_init_configuration
      ["[primary]", "[primary]"] = .error () := by
  constructor
  · exact c7_reserved_and_duplicate_server_names.1 env_all_true
      { sample_config with servers := [{ sample_server with name := "pgexporter" }] }
      0 (by decide) (Or.inl rfl)
  · exact c7_reserved_and_duplicate_server_names.2.1 "primary"
      (by decide) (by decide) (by decide) (by decide)

/-! ### Claim C2: restart-required fields across a reload -/

/-- copy_endpoint changes nothing. -/
theorem map_copy_endpoint (l : List Endpoint) : l.map copy_endpoint = l := by
  have h : copy_endpoint = fun e => e := funext fun e => rfl
  rw [h, List.map_id']

/-- What transfer_configuration does to the fields the claims watch:
the restart-flagged fields keep their live values, while host, the
cache ages and the endpoint array are taken from the candidate. -/
theorem transfer_configuration_fields (config reload : Config) :
    (transfer_configuration config reload).2.metrics_cache_max_size =
      config.metrics_cache_max_size ∧
    (transfer_configuration config reload).2.bridge = config.bridge ∧
    (transfer_configuration config reload).2.bridge_cache_max_size =
      config.bridge_cache_max_size ∧
    (transfer_configuration config reload).2.bridge_json = config.bridge_json ∧
    (transfer_configuration config reload).2.bridge_json_cache_max_size =
      config.bridge_json_cache_max_size ∧
    (transfer_configuration config reload).2.log_type = config.log_type ∧
    (transfer_configuration config reload).2.pidfile = config.pidfile ∧
    (transfer_configuration config reload).2.libev = config.libev ∧
    (transfer_configuration config reload).2.hugepage = config.hugepage ∧
    (transfer_configuration config reload).2.update_process_title =
      config.update_process_title ∧
    (transfer_configuration config reload).2.unix_socket_dir = config.unix_socket_dir ∧
    (transfer_configuration config reload).2.host = reload.host ∧
    (transfer_configuration config reload).2.metrics_cache_max_age =
      reload.metrics_cache_max_age ∧
    (transfer_configuration config reload).2.endpoints =
      reload.endpoints.map copy_endpoint ∧
    (transfer_configuration config reload).2.servers = reload.servers.map copy_server ∧
    (transfer_configuration config reload).2.number_of_servers =
      reload.number_of_servers := by
  unfold transfer_configuration
  dsimp only
  split <;>
    exact ⟨rfl, rfl, rfl, rfl, rfl, rfl, rfl, rfl, rfl, rfl, rfl, rfl, rfl, rfl, rfl, rfl⟩

/-- The restart flag is exactly the disjunction of the twelve
restart-flagged comparisons. -/
theorem transfer_flag_iff (config reload : Config) :
    (transfer_configuration config reload).1 = true ↔
      (config.metrics_cache_max_size ≠ reload.metrics_cache_max_size ∨
       config.bridge ≠ reload.bridge ∨
       render_endpoints config.endpoints ≠ render_endpoints reload.endpoints ∨
       config.bridge_cache_max_size ≠ reload.bridge_cache_max_size ∨
       config.bridge_json ≠ reload.bridge_json ∨
       config.bridge_json_cache_max_size ≠ reload.bridge_json_cache_max_size ∨
       config.log_type ≠ reload.log_type ∨
       config.pidfile ≠ reload.pidfile ∨
       config.libev ≠ reload.libev ∨
       config.hugepage ≠ reload.hugepage ∨
       config.update_process_title ≠ reload.update_process_title ∨
       config.unix_socket_dir ≠ reload.unix_socket_dir) := by
  unfold transfer_configuration restart_int restart_string
  dsimp only
  simp only [Bool.or_eq_true, decide_eq_true_eq, Nat.cast_inj, Int.natCast_inj,
    ne_eq, Nat.cast_inj]
  tauto

/-- C2 counterexample: live and candidate differ in the restart-flagged
metrics_cache_max_size; the transfer reports the restart but does not
abort the swap: the host of the live configuration is overwritten with
the candidate host. -/
theorem c2_counterexample :
    (transfer_configuration c2_live c2_cand).1 = true ∧
    (transfer_configuration c2_live c2_cand).2.host = "b" ∧
    c2_live.host = "a" :=
  ⟨rfl, rfl, rfl⟩

/-- C2 amended: when the candidate differs from the live configuration
in a restart-flagged field, restart-required is reported, and the
restart-flagged scalars keep their live values — but the swap is not
aborted: every other field is transferred, including host and even the
bridge endpoint array (whose difference is itself restart-flagged). -/
theorem c2_amended_restart_reported_but_swap_proceeds (live cand : Config)
    (hdiff : live.metrics_cache_max_size ≠ cand.metrics_cache_max_size ∨
       live.bridge ≠ cand.bridge ∨
       render_endpoints live.endpoints ≠ render_endpoints cand.endpoints ∨
       live.bridge_cache_max_size ≠ cand.bridge_cache_max_size ∨
       live.bridge_json ≠ cand.bridge_json ∨
       live.bridge_json_cache_max_size ≠ cand.bridge_json_cache_max_size ∨
       live.log_type ≠ cand.log_type ∨
       live.pidfile ≠ cand.pidfile ∨
       live.libev ≠ cand.libev ∨
       live.hugepage ≠ cand.hugepage ∨
       live.update_process_title ≠ cand.update_process_title ∨
       live.unix_socket_dir ≠ cand.unix_socket_dir) :
    (transfer_configuration live cand).1 = true ∧
    (transfer_configuration live cand).2.metrics_cache_max_size =
      live.metrics_cache_max_size ∧
    (transfer_configuration live cand).2.bridge = live.bridge ∧
    (transfer_configuration live cand).2.bridge_cache_max_size =
      live.bridge_cache_max_size ∧
    (transfer_configuration live cand).2.bridge_json = live.bridge_json ∧
    (transfer_configuration live cand).2.bridge_json_cache_max_size =
      live.bridge_json_cache_max_size ∧
    (transfer_configuration live cand).2.log_type = live.log_type ∧
    (transfer_configuration live cand).2.pidfile = live.pidfile ∧
    (transfer_configuration live cand).2.libev = live.libev ∧
    (transfer_configuration live cand).2.hugepage = live.hugepage ∧
    (transfer_configuration live cand).2.update_process_title =
      live.update_process_title ∧
    (transfer_configuration live cand).2.unix_socket_dir = live.unix_socket_dir ∧
    (transfer_configuration live cand).2.host = cand.host ∧
    (transfer_configuration live cand).2.endpoints = cand.endpoints := by
  have hf := transfer_configuration_fields live cand
  refine ⟨(transfer_flag_iff live cand).mpr hdiff,
    hf.1, hf.2.1, hf.2.2.1, hf.2.2.2.1, hf.2.2.2.2.1, hf.2.2.2.2.2.1,
    hf.2.2.2.2.2.2.1, hf.2.2.2.2.2.2.2.1, hf.2.2.2.2.2.2.2.2.1,
    hf.2.2.2.2.2.2.2.2.2.1, hf.2.2.2.2.2.2.2.2.2.2.1,
    hf.2.2.2.2.2.2.2.2.2.2.2.1, ?_⟩
  rw [hf.2.2.2.2.2.2.2.2.2.2.2.2.2.1, map_copy_endpoint]

/-- Witness for C2 at the concrete pair: the live configuration keeps
its metrics_cache_max_size, the restart is reported, and the host is
transferred anyway. -/
theorem c2_witness :
    (transfer_configuration c2_live c2_cand).1 = true ∧
    (transfer_configuration c2_live c2_cand).2.metrics_cache_max_size =
      c2_live.metrics_cache_max_size ∧
    (transfer_configuration c2_live c2_cand).2.host = c2_cand.host :=
  have h := c2_amended_restart_reported_but_swap_proceeds c2_live c2_cand
    (Or.inl (by decide))
  ⟨h.1, h.2.1, h.2.2.2.2.2.2.2.2.2.2.2.2.1⟩

/-! ### Claim C5: endpoint normalization -/

/-- Trimming from the right, one cons at a time. -/
theorem trimRight_cons (p : Char → Bool) (c : Char) (t : List Char) :
    ((c :: t).reverse.dropWhile p).reverse =
      if (t.reverse.dropWhile p).reverse = [] then (if p c then [] else [c])
      else c :: (t.reverse.dropWhile p).reverse := by
  rw [List.reverse_cons, List.dropWhile_append]
  by_cases h : t.reverse.dropWhile p = []
  · rw [if_pos (by simp [h]), if_pos (by simp [h])]
    cases hc : p c <;> simp [List.dropWhile_cons, hc]
  · rw [if_neg (by simp [h]), if_neg (by simp [h])]
    rw [List.reverse_append]
    rfl

/-- Dropping leading matches first and trailing matches second gives
the same trim as the other order. -/
theorem dropWhile_rev_comm (p : Char → Bool) (l : List Char) :
    ((l.dropWhile p).reverse.dropWhile p).reverse =
      ((l.reverse.dropWhile p).reverse).dropWhile p := by
  induction l with
  | nil => rfl
  | cons c t ih =>
    rw [trimRight_cons]
    by_cases hc : p c
    · rw [List.dropWhile_cons, if_pos hc, ih]
      by_cases h : (t.reverse.dropWhile p).reverse = []
      · rw [if_pos h, h]
        cases hcb : p c <;> simp_all
      · rw [if_neg h, List.dropWhile_cons, if_pos hc]
    · rw [List.dropWhile_cons, if_neg hc]
      by_cases h : (t.reverse.dropWhile p).reverse = []
      · rw [if_pos h]
        rw [if_neg hc]
        rw [trimRight_cons, if_pos h, if_neg hc]
        simp [List.dropWhile_cons, hc]
      · rw [if_neg h]
        rw [trimRight_cons, if_neg h]
        simp [List.dropWhile_cons, hc]

/-- The modelled whitespace strip equals the claim-side trim. -/
theorem remove_whitespace_m_eq (s : String) :
    remove_whitespace_m s = (claim_trim s.toList).asString := by
  unfold remove_whitespace_m claim_trim
  rw [dropWhile_rev_comm]

/-- The modelled leading strip written with take and drop. -/
theorem remove_pre_m_asString (l : List Char) (p : String) :
    remove_pre_m l.asString p =
      (if l.take p.toList.length = p.toList then l.drop p.toList.length else l).asString := by
  unfold remove_pre_m
  rw [List.toList_asString]
  by_cases h : p.toList.isPrefixOf l
  · rw [if_pos h, if_pos]
    exact (List.prefix_iff_eq_take.mp (List.isPrefixOf_iff_prefix.mp h)).symm
  · rw [if_neg h, if_neg]
    intro hcond
    exact h (List.isPrefixOf_iff_prefix.mpr (List.prefix_iff_eq_take.mpr hcond.symm))

/-- The modelled trailing strip written with drop and take. -/
theorem remove_suf_m_asString (l : List Char) (p : String) :
    remove_suf_m l.asString p =
      (if l.drop (l.length - p.toList.length) = p.toList then
        l.take (l.length - p.toList.length) else l).asString := by
  unfold remove_suf_m
  rw [List.toList_asString]
  by_cases h : p.toList.isSuffixOf l
  · rw [if_pos h, if_pos]
    exact (List.suffix_iff_eq_drop.mp (List.isSuffixOf_iff_suffix.mp h)).symm
  · rw [if_neg h, if_neg]
    intro hcond
    exact h (List.isSuffixOf_iff_suffix.mpr (List.suffix_iff_eq_drop.mpr hcond.symm))

/-- The trailing /metrics condition implies the length bound the claim
mentions. -/
theorem drop_metrics_iff (l : List Char) :
    (l.drop (l.length - 8) = "/metrics".toList) ↔
      (l.drop (l.length - 8) = "/metrics".toList ∧ 8 ≤ l.length) := by
  constructor
  · intro h
    refine ⟨h, ?_⟩
    have hl := congrArg List.length h
    simp only [List.length_drop] at hl
    have h8 : ("/metrics".toList).length = 8 := rfl
    omega
  · exact And.left

/-- A trailing slash as a drop condition and as the last element. -/
theorem drop_slash_iff (l : List Char) :
    (l.drop (l.length - 1) = "/".toList) ↔ l.getLast? = some '/' := by
  have h1 : "/".toList = ['/'] := rfl
  rw [h1, List.getLast?_eq_some_iff]
  constructor
  · intro h
    have hs : ['/'] <:+ l := List.suffix_iff_eq_drop.mpr (by simpa using h.symm)
    obtain ⟨t, ht⟩ := hs
    exact ⟨t, ht.symm⟩
  · rintro ⟨ys, rfl⟩
    have hlen : (ys ++ ['/']).length - 1 = ys.length := by simp
    rw [hlen, List.drop_left]

/-- C5 counterexample: on an endpoint that begins with both prefixes
the source strips https:// and then also http://, while the claim as
stated strips only the one leading prefix: the two normalizations
disagree at this input. -/
theorem c5_counterexample :
    normalize_endpoint_token "https://http://h1:9090" = "h1:9090" ∧
    claim_c5_normalize "https://http://h1:9090" = "http://h1:9090" ∧
    normalize_endpoint_token "https://http://h1:9090" ≠
      claim_c5_normalize "https://http://h1:9090" :=
  ⟨rfl, rfl, by decide⟩

/-- C5 amended: for every endpoint string the normalization strips, in
order, the surrounding whitespace, a leading https:// prefix when
present, then a leading http:// prefix when present, then a trailing
/metrics suffix, then a trailing slash — before the host and port are
extracted. -/
theorem c5_amended_normalization_order (s : String) :
    normalize_endpoint_token s = claim_c5_amended_normalize s := by
  unfold normalize_endpoint_token claim_c5_amended_normalize
  rw [remove_whitespace_m_eq, remove_pre_m_asString, remove_pre_m_asString,
    remove_suf_m_asString, remove_suf_m_asString]
  unfold claim_strip_metrics_suf claim_strip_slash
  rw [List.asString_inj]
  have h8 : ("https://".toList).length = 8 := rfl
  have h7 : ("http://".toList).length = 7 := rfl
  have h8m : ("/metrics".toList).length = 8 := rfl
  have h1s : ("/".toList).length = 1 := rfl
  rw [h8, h7, h8m, h1s]
  rw [if_congr (drop_metrics_iff _).symm rfl rfl]
  rw [if_congr (drop_slash_iff _) rfl rfl]

/-! ### Claim C9: as_bytes -/

/-- UInt32 order is the order of the underlying numbers. -/
theorem uint32_le_toNat (a b : UInt32) : (a ≤ b) ↔ (a.toNat ≤ b.toNat) := Iff.rfl

/-- A digit is not a letter. -/
theorem isDigit_not_alpha (c : Char) (h : c.isDigit = true) : c.isAlpha = false := by
  simp only [Char.isDigit, Bool.and_eq_true, decide_eq_true_eq, uint32_le_toNat] at h
  simp only [Char.isAlpha, Char.isUpper, Char.isLower, Bool.or_eq_false_iff,
    Bool.and_eq_false_iff, decide_eq_false_iff_not, uint32_le_toNat, not_le]
  norm_num at h ⊢
  omega

/-- A letter is not a digit. -/
theorem isAlpha_not_digit (c : Char) (h : c.isAlpha = true) : c.isDigit = false := by
  cases hd : c.isDigit
  · rfl
  · rw [isDigit_not_alpha c hd] at h
    cases h

/-- A digit is not whitespace. -/
theorem isDigit_not_space (c : Char) (h : c.isDigit = true) : isSpaceC c = false := by
  simp only [isSpaceC, Bool.or_eq_false_iff, decide_eq_false_iff_not]
  and_intros <;> (rintro rfl; exact absurd h (by decide))

/-- A digit is not a sign character. -/
theorem isDigit_not_sign (c : Char) (h : c.isDigit = true) : c ≠ '-' ∧ c ≠ '+' := by
  constructor <;> (rintro rfl <;> simp [Char.isDigit] at h)

/-- The character scan of as_bytes factors into the digit subsequence
and the letter discipline, as soon as every character is a digit or a
letter; one alien character makes it fail. -/
theorem as_bytes_scan_eq (cs : List Char) : ∀ (digits : List Char) (mult : Int) (mset : Bool),
    as_bytes_scan cs digits mult mset =
      if cs.all (fun c => c.isDigit || c.isAlpha) then
        (letters_mult (cs.filter (fun c => c.isAlpha)) mult mset).map
          (fun m => (digits ++ cs.filter (fun c => c.isDigit), m))
      else none := by
  induction cs with
  | nil => intro digits mult mset; simp [as_bytes_scan, letters_mult]
  | cons c rest ih =>
    intro digits mult mset
    by_cases hd : c.isDigit = true
    · have ha := isDigit_not_alpha c hd
      simp only [as_bytes_scan, hd, ha, if_true, Bool.false_eq_true, if_false,
        Bool.true_or, Bool.true_and, Bool.false_and, Bool.and_false, Bool.and_true,
        List.all_cons, List.filter_cons, ih]
      by_cases hall : rest.all (fun c => c.isDigit || c.isAlpha) = true
      · simp [hall, List.append_assoc]
      · simp [hall]
    · have hdf : c.isDigit = false := by simpa using hd
      by_cases ha : c.isAlpha = true
      · cases mset with
        | true =>
          simp only [as_bytes_scan, hdf, ha, letters_mult, List.all_cons,
            List.filter_cons, Bool.and_true, Bool.false_eq_true, if_false, if_true,
            Bool.or_true, Bool.true_and, ih]
          split_ifs with h1 h2 h3 <;> simp_all
        | false =>
          simp only [as_bytes_scan, hdf, ha, letters_mult, unit_mult, List.all_cons,
            List.filter_cons, Bool.and_false, Bool.and_true, Bool.false_eq_true,
            if_false, if_true, Bool.or_true, Bool.true_and, ih]
          split_ifs with u1 u2 u3 u4 <;> simp_all
      · have haf : c.isAlpha = false := by simpa using ha
        simp [as_bytes_scan, hdf, haf]

/-- Digit strings parse as their numeric value. -/
theorem as_long_digits (ds : List Char) (h0 : ds ≠ [])
    (hd : ∀ c ∈ ds, c.isDigit = true) :
    as_long ds.asString = some (digits_to_nat ds : Int) := by
  unfold as_long strtol_full
  rw [List.toList_asString]
  obtain ⟨c, t, rfl⟩ := List.exists_cons_of_ne_nil h0
  have hc : c.isDigit = true := hd c (List.mem_cons_self c t)
  have hsp := isDigit_not_space c hc
  have hsg := isDigit_not_sign c hc
  have h1 : (c :: t).dropWhile isSpaceC = c :: t := by
    rw [List.dropWhile_cons, if_neg (by simp [hsp])]
  rw [h1]
  dsimp only
  rw [if_neg hsg.1, if_neg hsg.2]
  have htw : (c :: t).takeWhile Char.isDigit = c :: t := by
    rw [List.takeWhile_eq_self_iff]
    intro a ha2
    exact hd a ha2
  dsimp only
  rw [htw]
  rw [if_neg (show ¬(c :: t = []) by simp)]
  rw [if_neg (show ¬((c :: t).drop (c :: t).length ≠ []) by simp [List.drop_length])]
  rw [one_mul]

/-- C9 counterexample: as_bytes accepts digits after the unit letter
(1k2 parses as 12 kilobytes) and accepts repeated b suffixes (12kbb),
while the claim as stated calls for a parse failure with the default on
both. -/
theorem c9_counterexample :
    as_bytes "1k2" 7 = (0, 12288) ∧ as_bytes "12kbb" 7 = (0, 12288) ∧
    as_bytes "12x" 7 = (0, 12) :=
  ⟨rfl, rfl, rfl⟩

/-- C9 amended: as_bytes equals the functional specification
bytes_claim_spec on every input: empty or whitespace-only input returns
the default with success; any character that is neither a digit nor a
letter fails with the default; otherwise the digit characters in order
form the number (at least one digit is required), the letters obey the
letter discipline — before a unit is set, b, k, m, g (either case) set
it and any other letter is ignored; after it only b or B is allowed and
only for a unit other than bytes — and the result is the number times
the unit.  Overflow of the C long is not modelled. -/
theorem c9_amended_as_bytes_spec (s : String) (d : Int) :
    as_bytes s d = bytes_claim_spec s d := by
  unfold as_bytes bytes_claim_spec
  by_cases he : is_empty_string s = true
  · simp [he]
  · have hef : is_empty_string s = false := by simpa using he
    simp only [hef, Bool.false_eq_true, if_false]
    rw [as_bytes_scan_eq]
    by_cases hall : s.toList.all (fun c => c.isDigit || c.isAlpha) = true
    · simp only [hall, if_true, Bool.not_true, Bool.false_eq_true, if_false]
      cases hlm : letters_mult (s.toList.filter (fun c => c.isAlpha)) 1 false with
      | none => simp [hlm]
      | some m =>
        simp only [hlm]
        dsimp only [Option.map]
        by_cases hds : s.toList.filter (fun c => c.isDigit) = []
        · rw [if_pos hds, hds]
          rfl
        · rw [if_neg hds]
          rw [List.nil_append]
          rw [as_long_digits _ hds (fun c hc => (List.mem_filter.mp hc).2)]
          dsimp only
          rw [if_pos (Int.natCast_nonneg _)]
    · have hallf : (s.toList.all fun c => c.isDigit || c.isAlpha) = false := by
        simpa using hall
      rw [hallf]
      rfl

/-! ### Claim C10: conf set on restart-required keys -/

/-- C10 counterexample: conf set on bridge_endpoints reports
restart-required with the requested value, yet the live endpoint array
is overwritten with the new endpoints — the live configuration is not
left unchanged for that key — and the reported current value is the
placeholder, because write_config_value has no bridge_endpoints
branch. -/
theorem c10_counterexample :
    (pgexporter_conf_set env_all_true sample_config "bridge_endpoints" "h2:2").1 =
      .restart "bridge_endpoints" "h2:2" "<unknown>" ∧
    (pgexporter_conf_set env_all_true sample_config "bridge_endpoints" "h2:2").2.endpoints =
      [{ host := "h2", port := 2 }] ∧
    sample_config.endpoints = [{ host := "h1", port := 1 }] :=
  ⟨rfl, rfl, rfl⟩

/-- C10 amended: for a scalar restart-flagged main key
(metrics_cache_max_size) whose parsed new value differs from the live
value, conf set succeeds with a restart response carrying the requested
and the current (old) value and the live field keeps its old value; for
a key that is not restart-flagged (metrics_cache_max_age) the new value
is applied to the live configuration and reported as the new value.
The bridge_endpoints behaviour of the counterexample is the exception:
its restart report does not stop the endpoint array from being
overwritten. -/
theorem c10_amended_restart_scalar_reported_value_kept (env : FsEnv) (live : Config)
    (v w : String)
    (hb : (as_bytes v 0).1 = 0)
    (hne : live.metrics_cache_max_size ≠ (as_bytes v 0).2.toNat)
    (hval : (pgexporter_validate_configuration env
      { live with metrics_cache_max_size := (as_bytes v 0).2.toNat }).1 = 0)
    (hsw : (as_seconds w 0).1 = 0)
    (hval2 : (pgexporter_validate_configuration env
      { live with metrics_cache_max_age := (as_seconds w 0).2 }).1 = 0) :
    (pgexporter_conf_set env live "metrics_cache_max_size" v).1 =
      .restart "metrics_cache_max_size" v (toString live.metrics_cache_max_size) ∧
    (pgexporter_conf_set env live "metrics_cache_max_size" v).2.metrics_cache_max_size =
      live.metrics_cache_max_size ∧
    (pgexporter_conf_set env live "metrics_cache_max_age" w).1 =
      .applied "metrics_cache_max_age" (toString live.metrics_cache_max_age)
        (toString (as_seconds w 0).2) ∧
    (pgexporter_conf_set env live "metrics_cache_max_age" w).2.metrics_cache_max_age =
      (as_seconds w 0).2 := by
  have hk1 : apply_cfg_key live "metrics_cache_max_size" v =
      (if (as_bytes v 0).1 = 0 then
        some { live with metrics_cache_max_size := (as_bytes v 0).2.toNat } else none) := rfl
  have hk2 : apply_cfg_key live "metrics_cache_max_age" w =
      (if (as_seconds w 0).1 = 0 then
        some { live with metrics_cache_max_age := (as_seconds w 0).2 } else none) := rfl
  have hac1 : apply_configuration env live
      { sect := "pgexporter", context := "", key := "metrics_cache_max_size"
        is_main_sect := true, section_type := 0 } v =
      some (transfer_configuration live (validate_mutations env
        { live with metrics_cache_max_size := (as_bytes v 0).2.toNat })) := by
    unfold apply_configuration
    dsimp only
    rw [hk1, if_pos hb]
    dsimp only
    rw [if_neg (fun hcon => hcon hval), validate_ok_snd env _ hval]
  have hac2 : apply_configuration env live
      { sect := "pgexporter", context := "", key := "metrics_cache_max_age"
        is_main_sect := true, section_type := 0 } w =
      some (transfer_configuration live (validate_mutations env
        { live with metrics_cache_max_age := (as_seconds w 0).2 })) := by
    unfold apply_configuration
    dsimp only
    rw [hk2, if_pos hsw]
    dsimp only
    rw [if_neg (fun hcon => hcon hval2), validate_ok_snd env _ hval2]
  have hm1 := (validate_mutations_fields env
    { live with metrics_cache_max_size := (as_bytes v 0).2.toNat }).2.2.1
  have hflag1 : (transfer_configuration live (validate_mutations env
      { live with metrics_cache_max_size := (as_bytes v 0).2.toNat })).1 = true := by
    refine (transfer_flag_iff live _).mpr (Or.inl ?_)
    rw [hm1]
    exact hne
  have hfields2 := validate_mutations_fields env
    { live with metrics_cache_max_age := (as_seconds w 0).2 }
  have hflag2 : (transfer_configuration live (validate_mutations env
      { live with metrics_cache_max_age := (as_seconds w 0).2 })).1 = false := by
    have hnt : ¬ ((transfer_configuration live (validate_mutations env
        { live with metrics_cache_max_age := (as_seconds w 0).2 })).1 = true) := by
      rw [transfer_flag_iff]
      push_neg
      refine ⟨(hfields2.2.2.1).symm, (hfields2.2.2.2.1).symm, ?_,
        (hfields2.2.2.2.2.2.1).symm, (hfields2.2.2.2.2.2.2.1).symm,
        (hfields2.2.2.2.2.2.2.2.1).symm, (hfields2.2.2.2.2.2.2.2.2.1).symm,
        (hfields2.2.2.2.2.2.2.2.2.2.1).symm, (hfields2.2.2.2.2.2.2.2.2.2.2.1).symm,
        (hfields2.2.2.2.2.2.2.2.2.2.2.2.1).symm,
        (hfields2.2.2.2.2.2.2.2.2.2.2.2.2.1).symm,
        (hfields2.2.2.2.2.2.2.2.2.2.2.2.2.2.1).symm⟩
      rw [hfields2.2.2.2.2.1]
    simpa using hnt
  have hwv : ∀ c : Config, write_config_value c "metrics_cache_max_age" =
      some (toString c.metrics_cache_max_age) := fun c => rfl
  have hset1 : pgexporter_conf_set env live "metrics_cache_max_size" v =
      (.restart "metrics_cache_max_size" v (toString live.metrics_cache_max_size),
       (transfer_configuration live (validate_mutations env
         { live with metrics_cache_max_size := (as_bytes v 0).2.toNat })).2) := by
    unfold pgexporter_conf_set
    rw [show is_valid_config_key live "metrics_cache_max_size" =
      some { sect := "pgexporter", context := "", key := "metrics_cache_max_size"
             is_main_sect := true, section_type := 0 } from rfl]
    dsimp only
    rw [hac1]
    dsimp only
    rw [if_pos hflag1]
    rw [show write_config_value live "metrics_cache_max_size" =
      some (toString live.metrics_cache_max_size) from rfl]
    rfl
  have htf2 := transfer_configuration_fields live (validate_mutations env
    { live with metrics_cache_max_age := (as_seconds w 0).2 })
  have hset2 : pgexporter_conf_set env live "metrics_cache_max_age" w =
      (.applied "metrics_cache_max_age" (toString live.metrics_cache_max_age)
        (toString (as_seconds w 0).2),
       (transfer_configuration live (validate_mutations env
         { live with metrics_cache_max_age := (as_seconds w 0).2 })).2) := by
    unfold pgexporter_conf_set
    rw [show is_valid_config_key live "metrics_cache_max_age" =
      some { sect := "pgexporter", context := "", key := "metrics_cache_max_age"
             is_main_sect := true, section_type := 0 } from rfl]
    dsimp only
    rw [hac2]
    dsimp only
    rw [hflag2]
    rw [if_neg Bool.false_ne_true]
    rw [hwv live, hwv]
    rw [htf2.2.2.2.2.2.2.2.2.2.2.2.2.1]
    rw [hfields2.2.2.2.2.2.2.2.2.2.2.2.2.2.2.1]
    rfl
  have htf1 := transfer_configuration_fields live (validate_mutations env
    { live with metrics_cache_max_size := (as_bytes v 0).2.toNat })
  refine ⟨by rw [hset1], ?_, by rw [hset2], ?_⟩
  · rw [hset1]
    exact htf1.1
  · rw [hset2]
    rw [htf2.2.2.2.2.2.2.2.2.2.2.2.2.1]
    rw [hfields2.2.2.2.2.2.2.2.2.2.2.2.2.2.2.1]

/-- Witness for C10: at the sample configuration, conf set on
metrics_cache_max_size with value 2M reports restart-required carrying
the current value and keeps the live field, while a change to
metrics_cache_max_age is applied and reported. -/
theorem c10_witness :
    (as_bytes "2M" 0).1 = 0 ∧
    ((pgexporter_conf_set env_all_true sample_config "metrics_cache_max_size" "2M").1 =
        .restart "metrics_cache_max_size" "2M"
          (toString sample_config.metrics_cache_max_size) ∧
      (pgexporter_conf_set env_all_true sample_config
          "metrics_cache_max_size" "2M").2.metrics_cache_max_size =
        sample_config.metrics_cache_max_size ∧
      (pgexporter_conf_set env_all_true sample_config "metrics_cache_max_age" "60").1 =
        .applied "metrics_cache_max_age" (toString sample_config.metrics_cache_max_age)
          (toString (as_seconds "60" 0).2) ∧
      (pgexporter_conf_set env_all_true sample_config
          "metrics_cache_max_age" "60").2.metrics_cache_max_age =
        (as_seconds "60" 0).2) :=
  ⟨by decide,
   c10_amended_restart_scalar_reported_value_kept env_all_true sample_config "2M" "60"
     (by decide) (by decide) (by decide) (by decide) (by decide)⟩

end Pgexporter
